import Mathlib

/-! SCT013 RMS current meter

A shallow embedding of the two variants of the `SCT013` class and the properties
proved about them.

* `Sct013.Legacy`  embeds `src/SCT013.cpp`  (fixed sample count window).
* `Sct013.Current` embeds `src/src/SCT013.cpp` (ten line cycles window, tare).

Conventions of the embedding.

* `int` is a 32-bit signed integer, carried as `Int`; an operation whose result the
  type cannot hold (`_sampleCount++` at `INT_MAX`, `1 << r` with `r` outside `0..30`)
  and the integer division `1000 / 0` have no defined result: the function returns
  `none`.
* `unsigned long` is a 32-bit unsigned integer, carried as `Nat` and reduced
  modulo `2^32` by every operation.
* `float` and `double` are carried as rationals.  The meter methods are embedded with
  exact operations; where a claim depends on the rounding of the double operations
  (`smooth`, the repeated bias step) the function takes the rounding `rnd : ℚ → ℚ`
  applied to the result of each operation as a parameter: the identity gives exact
  arithmetic, `roundDouble` the IEEE 754 binary64 rounding to nearest.  A computed
  `double` that may fail to be a finite number, because a floating division by zero
  or the square root of a negative number produced it, has type `Dbl`, where `none`
  stands for a NaN or an infinity.  Such a value is absorbing for every operation the
  source applies to it.
* `sqrt` of the C library is a parameter `sqrt : ℚ → ℚ` of every function that calls it.
* `analogRead` and `millis` are inputs: the samples and clock readings a call obtains
  are arguments of the function that embeds it.
-/

namespace Sct013

/-! ## Machine arithmetic -/

/-- Largest value of the 32-bit `int`. -/
def INT_MAX : Int := 2147483647

/-- Number of values of the 32-bit `unsigned long` returned by `millis()`. -/
def ULONG_MOD : Nat := 4294967296

/-- A computed `double`: `some q` is the finite number `q`, `none` is a NaN or an
infinity. -/
abbrev Dbl := Option ℚ

/-- Product `a * b` of two doubles. -/
def Dbl.mul (a b : Dbl) : Dbl :=
  match a, b with
  | some x, some y => some (x * y)
  | _, _ => none

/-- Quotient `a / b` of two doubles; a zero divisor gives a NaN or an infinity.  The
source never divides by a value that can be infinite. -/
def Dbl.div (a b : Dbl) : Dbl :=
  match a, b with
  | some x, some y => if y = 0 then none else some (x / y)
  | _, _ => none

/-- Library call `sqrt(a)`: NaN for a negative argument. -/
def Dbl.sqrt (sqrt : ℚ → ℚ) (a : Dbl) : Dbl :=
  match a with
  | some x => if x < 0 then none else some (sqrt x)
  | none => none

/-- Expression `1 << r` on `int`: defined when `2^r` fits in the type. -/
def shl1 (r : Int) : Option Int :=
  if 0 ≤ r ∧ r < 31 then some (2 ^ r.toNat) else none

/-- Difference `now - start` on `unsigned long` (wraps modulo `2^32`). -/
def usub (now start : Nat) : Nat :=
  (now % ULONG_MOD + ULONG_MOD - start % ULONG_MOD) % ULONG_MOD

/-- Window length of the cycle-time policy, as both `readAmps()` and `update()`
compute it: `int period_ms = 1000 / _frequency; unsigned long duration = period_ms * 10;`
(truncating integer division, conversion of the `int` product to `unsigned long`). -/
def windowDuration (frequency : Int) : Option Nat :=
  if frequency = 0 then none
  else some ((Int.tdiv 1000 frequency * 10) % (ULONG_MOD : Int)).toNat

/-- RMS and scaling block shared by every read path:
`I_RMS_ADC = sqrt(sumI / count); max_adc = (double)(1 << _adcResolution);`
`I_RMS_Volts = (I_RMS_ADC / max_adc) * _voltageReference; I_RMS_Volts * _calibration`. -/
def rmsAmps (sqrt : ℚ → ℚ) (sumI : ℚ) (count : Int) (adcResolution : Int)
    (voltageReference : ℚ) (calibration : Dbl) : Option Dbl :=
  let I_RMS_ADC := Dbl.sqrt sqrt (Dbl.div (some sumI) (some (count : ℚ)))
  match shl1 adcResolution with
  | none => none
  | some m =>
    let max_adc : Dbl := some (m : ℚ)
    let I_RMS_Volts := Dbl.mul (Dbl.div I_RMS_ADC max_adc) (some voltageReference)
    some (Dbl.mul I_RMS_Volts calibration)

/-- Finalization as the specification words it:
`rmsAdcCounts = sqrt(sumOfSquares / sampleCount)`,
`rmsVolts = (rmsAdcCounts / 2^resolutionBits) × referenceVoltage`,
`resultAmps = rmsVolts × calibrationFactor`. -/
def specResultAmps (sqrt : ℚ → ℚ) (sumOfSquares : ℚ) (sampleCount : Int)
    (resolutionBits : Int) (referenceVoltage : ℚ) (calibrationFactor : Dbl) : Dbl :=
  let rmsAdcCounts := Dbl.sqrt sqrt (Dbl.div (some sumOfSquares) (some (sampleCount : ℚ)))
  let rmsVolts :=
    Dbl.mul (Dbl.div rmsAdcCounts (some ((2 : ℚ) ^ resolutionBits.toNat)))
      (some referenceVoltage)
  Dbl.mul rmsVolts calibrationFactor

/-! ## Legacy variant (`src/SCT013.cpp`) -/

namespace Legacy

/-- Private members of the legacy class. -/
structure SCT013 where
  _pin : Int
  _voltageReference : ℚ
  _adcResolution : Int
  _calibration : Dbl
  _offsetI : ℚ
  _filteredI : ℚ
  _sumI : ℚ
  _sampleCount : Int
  _samplesToAverage : Int
  _lastAmps : Dbl
deriving DecidableEq

/-- Manual constructor `SCT013(pin, voltageReference, adcResolution)`.  The member
`_filteredI` is not assigned; `filteredI0` is its indeterminate content. -/
def SCT013.construct (pin : Int) (voltageReference : ℚ) (adcResolution : Int)
    (filteredI0 : ℚ) : Option SCT013 :=
  match shl1 adcResolution with
  | none => none
  | some m =>
    some
      { _pin := pin
        _voltageReference := voltageReference
        _adcResolution := adcResolution
        _calibration := some 1
        _offsetI := ((m / 2 : Int) : ℚ)
        _filteredI := filteredI0
        _sumI := 0
        _sampleCount := 0
        _samplesToAverage := 1000
        _lastAmps := some 0 }

/-- Auto-configuring constructor `SCT013(pin)`; `esp32` tells whether `ESP32` is
defined at build time. -/
def SCT013.constructAuto (esp32 : Bool) (pin : Int) (filteredI0 : ℚ) : Option SCT013 :=
  let voltageReference : ℚ := if esp32 then 33 / 10 else 5
  let adcResolution : Int := if esp32 then 12 else 10
  match shl1 adcResolution with
  | none => none
  | some m =>
    some
      { _pin := pin
        _voltageReference := voltageReference
        _adcResolution := adcResolution
        _calibration := some 1
        _offsetI := ((m / 2 : Int) : ℚ)
        _filteredI := filteredI0
        _sumI := 0
        _sampleCount := 0
        _samplesToAverage := 1000
        _lastAmps := some 0 }

/-- Method `setCalibration`: `_calibration = turnsRatio / burdenResistor`. -/
def SCT013.setCalibration (s : SCT013) (turnsRatio burdenResistor : ℚ) : SCT013 :=
  { s with _calibration := Dbl.div (some turnsRatio) (some burdenResistor) }

/-- Method `begin`: `pinMode` has no effect on the members. -/
def SCT013.begin (s : SCT013) (turnsRatio burdenResistor : ℚ) : SCT013 :=
  s.setCalibration turnsRatio burdenResistor

/-- Body of the `for` loop of `readAmps(samples)`: `k` iterations remain, `i` is the
loop variable, `adc i` the value `analogRead` returns in iteration `i`. -/
def SCT013.sampleLoop (adc : Nat → Int) (s : SCT013) (sumI : ℚ) (i : Nat) :
    Nat → SCT013 × ℚ
  | 0 => (s, sumI)
  | k + 1 =>
    let sampleI : Int := adc i
    let offsetI : ℚ := s._offsetI + ((sampleI : ℚ) - s._offsetI) / 1024
    let filteredI : ℚ := (sampleI : ℚ) - offsetI
    let sqI : ℚ := filteredI * filteredI
    SCT013.sampleLoop adc { s with _offsetI := offsetI, _filteredI := filteredI }
      (sumI + sqI) (i + 1) k

/-- Method `readAmps(int samples)`. -/
def SCT013.readAmps (sqrt : ℚ → ℚ) (s : SCT013) (adc : Nat → Int) (samples : Int) :
    Option (SCT013 × Dbl) :=
  let r := SCT013.sampleLoop adc s 0 0 samples.toNat
  match rmsAmps sqrt r.2 samples r.1._adcResolution r.1._voltageReference
      r.1._calibration with
  | none => none
  | some amps => some (r.1, amps)

/-- Method `getDCoffset`. -/
def SCT013.getDCoffset (s : SCT013) : ℚ := s._offsetI

/-- Method `update()`; `sampleI` is the value `analogRead` returns. -/
def SCT013.update (sqrt : ℚ → ℚ) (s : SCT013) (sampleI : Int) : Option (SCT013 × Bool) :=
  let offsetI : ℚ := s._offsetI + ((sampleI : ℚ) - s._offsetI) / 1024
  let filteredI : ℚ := (sampleI : ℚ) - offsetI
  let sqI : ℚ := filteredI * filteredI
  let sumI : ℚ := s._sumI + sqI
  -- `_sampleCount++`
  if INT_MAX ≤ s._sampleCount then none
  else
    let sampleCount : Int := s._sampleCount + 1
    -- `if (_sampleCount >= _samplesToAverage)`
    if s._samplesToAverage ≤ sampleCount then
      match rmsAmps sqrt sumI sampleCount s._adcResolution s._voltageReference
          s._calibration with
      | none => none
      | some amps =>
        some
          ({ s with
              _offsetI := offsetI
              _filteredI := filteredI
              _lastAmps := amps
              _sumI := 0
              _sampleCount := 0 }, true)
    else
      some
        ({ s with
            _offsetI := offsetI
            _filteredI := filteredI
            _sumI := sumI
            _sampleCount := sampleCount }, false)

/-- Method `getLastAmps`. -/
def SCT013.getLastAmps (s : SCT013) : Dbl := s._lastAmps

/-- Successive calls of `update()`, one per sample of the list, with the flags they
return in call order. -/
def SCT013.updates (sqrt : ℚ → ℚ) : SCT013 → List Int → Option (SCT013 × List Bool)
  | s, [] => some (s, [])
  | s, x :: xs =>
    match SCT013.update sqrt s x with
    | none => none
    | some (s1, b) =>
      match SCT013.updates sqrt s1 xs with
      | none => none
      | some (s2, bs) => some (s2, b :: bs)

end Legacy

/-! ## Current variant (`src/src/SCT013.cpp`) -/

namespace Current

/-- Private members of the current class. -/
structure SCT013 where
  _pin : Int
  _voltageReference : ℚ
  _adcResolution : Int
  _calibration : Dbl
  _frequency : Int
  _offsetI : ℚ
  _filteredI : ℚ
  _sumI : ℚ
  _sampleCount : Int
  _startTime : Nat
  _lastAmps : Dbl
  _tareCount : Int
deriving DecidableEq

/-- Manual constructor `SCT013(pin, voltageReference, adcResolution)`.  The members
`_frequency` and `_filteredI` are not assigned; `frequency0` and `filteredI0` are
their indeterminate contents. -/
def SCT013.construct (pin : Int) (voltageReference : ℚ) (adcResolution : Int)
    (frequency0 : Int) (filteredI0 : ℚ) : Option SCT013 :=
  match shl1 adcResolution with
  | none => none
  | some m =>
    some
      { _pin := pin
        _voltageReference := voltageReference
        _adcResolution := adcResolution
        _calibration := some 1
        _frequency := frequency0
        _offsetI := ((m / 2 : Int) : ℚ)
        _filteredI := filteredI0
        _sumI := 0
        _sampleCount := 0
        _startTime := 0
        _lastAmps := some 0
        _tareCount := 0 }

/-- Auto-configuring constructor `SCT013(pin)`; `esp32` tells whether `ESP32` is
defined at build time.  The member `_filteredI` is not assigned. -/
def SCT013.constructAuto (esp32 : Bool) (pin : Int) (filteredI0 : ℚ) : Option SCT013 :=
  let voltageReference : ℚ := if esp32 then 33 / 10 else 5
  let adcResolution : Int := if esp32 then 12 else 10
  match shl1 adcResolution with
  | none => none
  | some m =>
    some
      { _pin := pin
        _voltageReference := voltageReference
        _adcResolution := adcResolution
        _calibration := some 1
        _frequency := 50
        _offsetI := ((m / 2 : Int) : ℚ)
        _filteredI := filteredI0
        _sumI := 0
        _sampleCount := 0
        _startTime := 0
        _lastAmps := some 0
        _tareCount := 0 }

/-- Method `setCalibration`: `_calibration = turnsRatio / burdenResistor`. -/
def SCT013.setCalibration (s : SCT013) (turnsRatio burdenResistor : ℚ) : SCT013 :=
  { s with _calibration := Dbl.div (some turnsRatio) (some burdenResistor) }

/-- Method `begin`: `pinMode` has no effect on the members. -/
def SCT013.begin (s : SCT013) (turnsRatio burdenResistor : ℚ) : SCT013 :=
  s.setCalibration turnsRatio burdenResistor

/-- Method `setFrequency`. -/
def SCT013.setFrequency (s : SCT013) (hz : Int) : SCT013 :=
  { s with _frequency := hz }

/-- The `while (millis() - start < duration)` loop of `readAmps()`.  `clock j` is the
value of the `j`-th call of `millis()` in `readAmps()` (call `0` gave `start`), so
the check of iteration `i` reads `clock (i + 1)`; `adc i` is the sample read in
iteration `i`.  Each check spends one unit of `fuel`; `none` when the fuel is spent
with the loop still running, or when `count++` leaves the range of `int`. -/
def SCT013.timedLoop (clock : Nat → Nat) (adc : Nat → Int) (start duration : Nat)
    (s : SCT013) (sumI : ℚ) (count : Int) (i : Nat) : Nat → Option (SCT013 × ℚ × Int)
  | 0 => none
  | fuel + 1 =>
    if usub (clock (i + 1)) start < duration then
      let sampleI : Int := adc i
      let offsetI : ℚ := s._offsetI + ((sampleI : ℚ) - s._offsetI) / 1024
      let filteredI : ℚ := (sampleI : ℚ) - offsetI
      let sumI1 : ℚ := sumI + filteredI * filteredI
      -- `count++`
      if INT_MAX ≤ count then none
      else
        SCT013.timedLoop clock adc start duration
          { s with _offsetI := offsetI, _filteredI := filteredI } sumI1 (count + 1) (i + 1)
          fuel
    else some (s, sumI, count)

/-- Method `readAmps()` (cycle-time policy). -/
def SCT013.readAmps (sqrt : ℚ → ℚ) (s : SCT013) (clock : Nat → Nat) (adc : Nat → Int)
    (fuel : Nat) : Option (SCT013 × Dbl) :=
  match windowDuration s._frequency with
  | none => none
  | some duration =>
    let start : Nat := clock 0 % ULONG_MOD
    match SCT013.timedLoop clock adc start duration s 0 0 0 fuel with
    | none => none
    | some (s1, sumI, count) =>
      -- `if (count == 0) return 0;`
      if count = 0 then some (s1, some 0)
      else
        match rmsAmps sqrt sumI count s1._adcResolution s1._voltageReference
            s1._calibration with
        | none => none
        | some amps => some (s1, amps)

/-- Body of the `for` loop of `readAmps(samples)`: `k` iterations remain, `i` is the
loop variable, `adc i` the value `analogRead` returns in iteration `i`. -/
def SCT013.sampleLoop (adc : Nat → Int) (s : SCT013) (sumI : ℚ) (i : Nat) :
    Nat → SCT013 × ℚ
  | 0 => (s, sumI)
  | k + 1 =>
    let sampleI : Int := adc i
    let offsetI : ℚ := s._offsetI + ((sampleI : ℚ) - s._offsetI) / 1024
    let filteredI : ℚ := (sampleI : ℚ) - offsetI
    let sqI : ℚ := filteredI * filteredI
    SCT013.sampleLoop adc { s with _offsetI := offsetI, _filteredI := filteredI }
      (sumI + sqI) (i + 1) k

/-- Method `readAmps(int samples)` (count policy). -/
def SCT013.readAmpsSamples (sqrt : ℚ → ℚ) (s : SCT013) (adc : Nat → Int) (samples : Int) :
    Option (SCT013 × Dbl) :=
  let r := SCT013.sampleLoop adc s 0 0 samples.toNat
  match rmsAmps sqrt r.2 samples r.1._adcResolution r.1._voltageReference
      r.1._calibration with
  | none => none
  | some amps => some (r.1, amps)

/-- Method `getDCoffset`. -/
def SCT013.getDCoffset (s : SCT013) : ℚ := s._offsetI

/-- Method `update()`.  `t0` is the value of the call of `millis()` made when
`_sampleCount == 0`, `sampleI` the value of `analogRead`, `t1` the value of the call
of `millis()` in the termination test. -/
def SCT013.update (sqrt : ℚ → ℚ) (s : SCT013) (t0 : Nat) (sampleI : Int) (t1 : Nat) :
    Option (SCT013 × Bool) :=
  -- `if (_sampleCount == 0) _startTime = millis();`
  let startTime : Nat := if s._sampleCount = 0 then t0 % ULONG_MOD else s._startTime
  -- digital low pass filter, fast while `_tareCount > 0`
  let offsetI : ℚ :=
    if 0 < s._tareCount then s._offsetI + ((sampleI : ℚ) - s._offsetI) / 4
    else s._offsetI + ((sampleI : ℚ) - s._offsetI) / 1024
  let tareCount : Int := if 0 < s._tareCount then s._tareCount - 1 else s._tareCount
  let filteredI : ℚ := (sampleI : ℚ) - offsetI
  let sqI : ℚ := filteredI * filteredI
  let sumI : ℚ := s._sumI + sqI
  -- `_sampleCount++`
  if INT_MAX ≤ s._sampleCount then none
  else
    let sampleCount : Int := s._sampleCount + 1
    match windowDuration s._frequency with
    | none => none
    | some duration =>
      -- `if (millis() - _startTime >= duration)`
      if duration ≤ usub t1 startTime then
        match rmsAmps sqrt sumI sampleCount s._adcResolution s._voltageReference
            s._calibration with
        | none => none
        | some amps =>
          some
            ({ s with
                _startTime := startTime
                _offsetI := offsetI
                _tareCount := tareCount
                _filteredI := filteredI
                _lastAmps := amps
                _sumI := 0
                _sampleCount := 0 }, true)
      else
        some
          ({ s with
              _startTime := startTime
              _offsetI := offsetI
              _tareCount := tareCount
              _filteredI := filteredI
              _sumI := sumI
              _sampleCount := sampleCount }, false)

/-- Method `getLastAmps`. -/
def SCT013.getLastAmps (s : SCT013) : Dbl := s._lastAmps

/-- Method `getCalibrationFactor`. -/
def SCT013.getCalibrationFactor (s : SCT013) : Dbl := s._calibration

/-- Method `setCalibrationFactor`. -/
def SCT013.setCalibrationFactor (s : SCT013) (factor : ℚ) : SCT013 :=
  { s with _calibration := some factor }

/-- Method `tareNoDelay`. -/
def SCT013.tareNoDelay (s : SCT013) : SCT013 :=
  { s with _tareCount := 100 }

/-- Method `getTareStatus`. -/
def SCT013.getTareStatus (s : SCT013) : Bool := decide (s._tareCount = 0)

/-- Inputs of one call of `update()`: the two clock readings and the sample. -/
structure Tick where
  t0 : Nat
  sampleI : Int
  t1 : Nat
deriving DecidableEq

/-- Successive calls of `update()`, one per element of the list, with the flags they
return in call order. -/
def SCT013.updates (sqrt : ℚ → ℚ) : SCT013 → List Tick → Option (SCT013 × List Bool)
  | s, [] => some (s, [])
  | s, x :: xs =>
    match SCT013.update sqrt s x.t0 x.sampleI x.t1 with
    | none => none
    | some (s1, b) =>
      match SCT013.updates sqrt s1 xs with
      | none => none
      | some (s2, bs) => some (s2, b :: bs)

/-- A call of a public method that can write a member, with the inputs the call
obtains.  The getters and `smooth` write no member and are left out. -/
inductive Call where
  | begin (turnsRatio burdenResistor : ℚ)
  | setCalibration (turnsRatio burdenResistor : ℚ)
  | setFrequency (hz : Int)
  | setCalibrationFactor (factor : ℚ)
  | tareNoDelay
  | readAmps (clock : Nat → Nat) (adc : Nat → Int) (fuel : Nat)
  | readAmpsSamples (adc : Nat → Int) (samples : Int)
  | update (t0 : Nat) (sampleI : Int) (t1 : Nat)

/-- Effect of one call on the members; the flag tells whether the call was an
`update()` that returned true. -/
def SCT013.call (sqrt : ℚ → ℚ) (s : SCT013) : Call → Option (SCT013 × Bool)
  | Call.begin turnsRatio burdenResistor => some (s.begin turnsRatio burdenResistor, false)
  | Call.setCalibration turnsRatio burdenResistor =>
    some (s.setCalibration turnsRatio burdenResistor, false)
  | Call.setFrequency hz => some (s.setFrequency hz, false)
  | Call.setCalibrationFactor factor => some (s.setCalibrationFactor factor, false)
  | Call.tareNoDelay => some (s.tareNoDelay, false)
  | Call.readAmps clock adc fuel =>
    match SCT013.readAmps sqrt s clock adc fuel with
    | none => none
    | some (s1, _) => some (s1, false)
  | Call.readAmpsSamples adc samples =>
    match SCT013.readAmpsSamples sqrt s adc samples with
    | none => none
    | some (s1, _) => some (s1, false)
  | Call.update t0 sampleI t1 => SCT013.update sqrt s t0 sampleI t1

/-- Successive calls in list order; the flag tells whether some `update()` among them
returned true. -/
def SCT013.calls (sqrt : ℚ → ℚ) : SCT013 → List Call → Option (SCT013 × Bool)
  | s, [] => some (s, false)
  | s, c :: cs =>
    match SCT013.call sqrt s c with
    | none => none
    | some (s1, b) =>
      match SCT013.calls sqrt s1 cs with
      | none => none
      | some (s2, b2) => some (s2, b || b2)

end Current

/-! ## Range predicates

The ranges in which the claims about bounds place the samples, the bias and the
accumulator of a meter with `bits` bits of resolution. -/

/-- Integer square root of the integer part: a computable function that can take the
place of the parameter `sqrt`. -/
def floorSqrt (q : ℚ) : ℚ := (Nat.sqrt ⌊q⌋₊ : ℚ)

/-- Clock whose successive readings start at 1000 ms and advance by `step` ms. -/
def demoClock (step : Nat) (i : Nat) : Nat := 1000 + step * i

/-- Legacy meter one sample short of the end of its window. -/
def Legacy.legacyDemo : Legacy.SCT013 :=
  { _pin := 0, _voltageReference := 5, _adcResolution := 10, _calibration := some 1,
    _offsetI := 512, _filteredI := 0, _sumI := 4000, _sampleCount := 999,
    _samplesToAverage := 1000, _lastAmps := some 0 }

/-- State of `Legacy.legacyDemo` after one more `update()` reading 512. -/
def Legacy.legacyDemoAfter : Legacy.SCT013 :=
  { _pin := 0, _voltageReference := 5, _adcResolution := 10, _calibration := some 1,
    _offsetI := 512, _filteredI := 0, _sumI := 0, _sampleCount := 0,
    _samplesToAverage := 1000, _lastAmps := some (5 / 512) }

/-- Current meter at 50 Hz, seven samples into a window opened at 1000 ms, with three
tare samples left. -/
def Current.demo : Current.SCT013 :=
  { _pin := 0, _voltageReference := 5, _adcResolution := 10, _calibration := some 1,
    _frequency := 50, _offsetI := 512, _filteredI := 0, _sumI := 23, _sampleCount := 7,
    _startTime := 1000, _lastAmps := some 0, _tareCount := 3 }

/-- State of `Current.demo` after an `update()` reading 516 at 1200 ms (window over). -/
def Current.demoClosed : Current.SCT013 :=
  { _pin := 0, _voltageReference := 5, _adcResolution := 10, _calibration := some 1,
    _frequency := 50, _offsetI := 513, _filteredI := 3, _sumI := 0, _sampleCount := 0,
    _startTime := 1000, _lastAmps := some (5 / 512), _tareCount := 2 }

/-- State of `Current.demo` after an `update()` reading 516 at 1100 ms (window open). -/
def Current.demoOpen : Current.SCT013 :=
  { _pin := 0, _voltageReference := 5, _adcResolution := 10, _calibration := some 1,
    _frequency := 50, _offsetI := 513, _filteredI := 3, _sumI := 32, _sampleCount := 8,
    _startTime := 1000, _lastAmps := some 0, _tareCount := 2 }

/-- State of `Current.demo` after `tareNoDelay()` and an `update()` reading 516 at
1100 ms. -/
def Current.demoTared : Current.SCT013 :=
  { _pin := 0, _voltageReference := 5, _adcResolution := 10, _calibration := some 1,
    _frequency := 50, _offsetI := 513, _filteredI := 3, _sumI := 32, _sampleCount := 8,
    _startTime := 1000, _lastAmps := some 0, _tareCount := 99 }

/-- Current meter set to 60 Hz, five samples into a window opened at 0 ms. -/
def Current.demo60 : Current.SCT013 :=
  { _pin := 0, _voltageReference := 5, _adcResolution := 10, _calibration := some 1,
    _frequency := 60, _offsetI := 512, _filteredI := 0, _sumI := 0, _sampleCount := 5,
    _startTime := 0, _lastAmps := some 0, _tareCount := 0 }

/-- Current meter at 50 Hz whose window opened 296 ms before the clock wraps. -/
def Current.demoWrap : Current.SCT013 :=
  { _pin := 0, _voltageReference := 5, _adcResolution := 10, _calibration := some 1,
    _frequency := 50, _offsetI := 512, _filteredI := 0, _sumI := 0, _sampleCount := 7,
    _startTime := 4294967000, _lastAmps := some 0, _tareCount := 0 }

/-- The inputs of the calls used to exercise the tare: sample 516 read at 1100 ms. -/
def Current.demoTick : Current.Tick := ⟨0, 516, 1100⟩

/-- State of `Current.demo` after a blocking read that takes the single sample 516. -/
def Current.demoRead : Current.SCT013 :=
  { _pin := 0, _voltageReference := 5, _adcResolution := 10, _calibration := some 1,
    _frequency := 50, _offsetI := 131073 / 256, _filteredI := 1023 / 256, _sumI := 23,
    _sampleCount := 7, _startTime := 1000, _lastAmps := some 0, _tareCount := 3 }

/-- State of `Current.demo60` after an `update()` reading 512 (window open). -/
def Current.demo60Open : Current.SCT013 :=
  { _pin := 0, _voltageReference := 5, _adcResolution := 10, _calibration := some 1,
    _frequency := 60, _offsetI := 512, _filteredI := 0, _sumI := 0, _sampleCount := 6,
    _startTime := 0, _lastAmps := some 0, _tareCount := 0 }

/-- State of `Current.demo60` after an `update()` reading 512 (window over). -/
def Current.demo60Closed : Current.SCT013 :=
  { _pin := 0, _voltageReference := 5, _adcResolution := 10, _calibration := some 1,
    _frequency := 60, _offsetI := 512, _filteredI := 0, _sumI := 0, _sampleCount := 0,
    _startTime := 0, _lastAmps := some 0, _tareCount := 0 }

/-- Meter built by the manual constructor when the unassigned `_frequency` holds 0. -/
def Current.demoManual : Current.SCT013 :=
  { _pin := 0, _voltageReference := 5, _adcResolution := 10, _calibration := some 1,
    _frequency := 0, _offsetI := 512, _filteredI := 0, _sumI := 0, _sampleCount := 0,
    _startTime := 0, _lastAmps := some 0, _tareCount := 0 }

/-- Meter built by the auto-configuring constructor on an AVR board. -/
def Current.demoFresh : Current.SCT013 :=
  { _pin := 0, _voltageReference := 5, _adcResolution := 10, _calibration := some 1,
    _frequency := 50, _offsetI := 512, _filteredI := 0, _sumI := 0, _sampleCount := 0,
    _startTime := 0, _lastAmps := some 0, _tareCount := 0 }

/-- A short session: configuration, start of a tare and one `update()` reading 512 at
100 ms that leaves the window open. -/
def Current.demoCalls : List Current.Call :=
  [Current.Call.setFrequency 60, Current.Call.tareNoDelay, Current.Call.update 0 512 100]

/-- State of `Current.demoFresh` after the calls of `Current.demoCalls`. -/
def Current.demoAfterCalls : Current.SCT013 :=
  { _pin := 0, _voltageReference := 5, _adcResolution := 10, _calibration := some 1,
    _frequency := 60, _offsetI := 512, _filteredI := 0, _sumI := 0, _sampleCount := 1,
    _startTime := 0, _lastAmps := some 0, _tareCount := 99 }

/-- Legacy meter as the manual constructor builds it for a 10-bit ADC at 5 V. -/
def Legacy.legacyFresh : Legacy.SCT013 :=
  { _pin := 0, _voltageReference := 5, _adcResolution := 10, _calibration := some 1,
    _offsetI := 512, _filteredI := 0, _sumI := 0, _sampleCount := 0,
    _samplesToAverage := 1000, _lastAmps := some 0 }

theorem shl1_eq_some {r m : Int} (h : shl1 r = some m) :
    0 ≤ r ∧ r < 31 ∧ m = 2 ^ r.toNat := by
  unfold shl1 at h
  split at h
  · rename_i hr
    simp only [Option.some.injEq] at h
    exact ⟨hr.1, hr.2, h.symm⟩
  · simp at h

theorem rmsAmps_zero_count (sqrt : ℚ → ℚ) (sumI : ℚ) (r : Int) (v : ℚ) (cal : Dbl) :
    rmsAmps sqrt sumI 0 r v cal = (shl1 r).map (fun _ => (none : Dbl)) := by
  unfold rmsAmps
  cases h : shl1 r <;> simp [Dbl.div, Dbl.sqrt, Dbl.mul]

theorem rmsAmps_eq_some {sqrt : ℚ → ℚ} {sumI : ℚ} {count r : Int} {v : ℚ} {cal amps : Dbl}
    (h : rmsAmps sqrt sumI count r v cal = some amps) :
    amps = specResultAmps sqrt sumI count r v cal := by
  unfold rmsAmps at h
  cases hm : shl1 r with
  | none => simp [hm] at h
  | some m =>
    obtain ⟨-, -, rfl⟩ := shl1_eq_some hm
    simp only [hm, Option.some.injEq] at h
    rw [← h]
    simp [specResultAmps]

theorem rmsAmps_isSome {r m : Int} (hm : shl1 r = some m) (sqrt : ℚ → ℚ) (sumI : ℚ)
    (count : Int) (v : ℚ) (cal : Dbl) :
    rmsAmps sqrt sumI count r v cal = some (specResultAmps sqrt sumI count r v cal) := by
  have h : ∃ a, rmsAmps sqrt sumI count r v cal = some a := by
    unfold rmsAmps
    simp [hm]
  obtain ⟨a, ha⟩ := h
  rw [ha, rmsAmps_eq_some ha]

theorem specResultAmps_finite (sqrt : ℚ → ℚ) (S : ℚ) (n r : Int) (v c : ℚ)
    (hn : n ≠ 0) (hS : 0 ≤ S / (n : ℚ)) :
    specResultAmps sqrt S n r v (some c)
      = some (sqrt (S / (n : ℚ)) / (2 : ℚ) ^ r.toNat * v * c) := by
  have hn' : (n : ℚ) ≠ 0 := by exact_mod_cast hn
  simp [specResultAmps, Dbl.div, Dbl.sqrt, Dbl.mul, hn', not_lt.mpr hS]

theorem floorSqrt_zero : floorSqrt 0 = 0 := by
  norm_num [floorSqrt]

theorem floorSqrt_four : floorSqrt 4 = 2 := by
  norm_num [floorSqrt]

theorem usub_wrap (start e : Nat) (hs : start < ULONG_MOD) (he : e < ULONG_MOD) :
    usub ((start + e) % ULONG_MOD) start = e := by
  unfold usub ULONG_MOD at *
  omega

theorem windowDuration_of_gt {f : Int} (hf : 1000 < f) : windowDuration f = some 0 := by
  unfold windowDuration
  rw [if_neg (by omega), Int.tdiv_eq_zero_of_lt (by decide) hf]
  rfl

theorem windowDuration_of_pos {f : Int} (hf : 0 < f) :
    windowDuration f = some (10 * (1000 / f.toNat)) := by
  unfold windowDuration
  rw [if_neg (by omega), Int.tdiv_eq_ediv (by decide) (le_of_lt hf)]
  obtain ⟨n, rfl⟩ := Int.eq_ofNat_of_zero_le (le_of_lt hf)
  have hle : 1000 / n ≤ 1000 := Nat.div_le_self 1000 n
  have hcast : ((1000 : Int) / (n : Int)) = ((1000 / n : Nat) : Int) := by norm_cast
  simp only [Int.toNat_ofNat, hcast, Option.some.injEq]
  unfold ULONG_MOD
  omega

namespace Legacy

theorem SCT013.legacyUpdate_eq_some {sqrt : ℚ → ℚ} {s s' : SCT013} {x : Int} {b : Bool}
    (h : SCT013.update sqrt s x = some (s', b)) :
    s._sampleCount < INT_MAX ∧
    ((b = true ∧ s._samplesToAverage ≤ s._sampleCount + 1 ∧
        ∃ amps, rmsAmps sqrt
            (s._sumI + ((x : ℚ) - (s._offsetI + ((x : ℚ) - s._offsetI) / 1024))
              * ((x : ℚ) - (s._offsetI + ((x : ℚ) - s._offsetI) / 1024)))
            (s._sampleCount + 1) s._adcResolution s._voltageReference s._calibration
            = some amps ∧
          s' = { s with
                  _offsetI := s._offsetI + ((x : ℚ) - s._offsetI) / 1024
                  _filteredI := (x : ℚ) - (s._offsetI + ((x : ℚ) - s._offsetI) / 1024)
                  _lastAmps := amps
                  _sumI := 0
                  _sampleCount := 0 })
      ∨ (b = false ∧ s._sampleCount + 1 < s._samplesToAverage ∧
          s' = { s with
                  _offsetI := s._offsetI + ((x : ℚ) - s._offsetI) / 1024
                  _filteredI := (x : ℚ) - (s._offsetI + ((x : ℚ) - s._offsetI) / 1024)
                  _sumI := s._sumI + ((x : ℚ) - (s._offsetI + ((x : ℚ) - s._offsetI) / 1024))
                    * ((x : ℚ) - (s._offsetI + ((x : ℚ) - s._offsetI) / 1024))
                  _sampleCount := s._sampleCount + 1 })) := by
  unfold SCT013.update at h
  simp only at h
  split at h
  · simp at h
  · rename_i hmax
    refine ⟨not_le.mp hmax, ?_⟩
    split at h
    · rename_i hT
      left
      split at h
      · simp at h
      · rename_i amps hamps
        simp only [Option.some.injEq, Prod.mk.injEq] at h
        exact ⟨h.2.symm, hT, amps, hamps, h.1.symm⟩
    · rename_i hT
      right
      simp only [Option.some.injEq, Prod.mk.injEq] at h
      exact ⟨h.2.symm, not_le.mp hT, h.1.symm⟩

theorem SCT013.legacyUpdate_open (sqrt : ℚ → ℚ) (s : SCT013) (x : Int)
    (hmax : s._sampleCount < INT_MAX) (hT : s._sampleCount + 1 < s._samplesToAverage) :
    ∃ s', SCT013.update sqrt s x = some (s', false)
      ∧ s'._sampleCount = s._sampleCount + 1
      ∧ s'._samplesToAverage = s._samplesToAverage
      ∧ s'._adcResolution = s._adcResolution := by
  unfold SCT013.update
  simp [not_le.mpr hmax, not_le.mpr hT]

theorem SCT013.legacyUpdate_close (sqrt : ℚ → ℚ) (s : SCT013) (x : Int) {m : Int}
    (hmax : s._sampleCount < INT_MAX) (hT : s._samplesToAverage ≤ s._sampleCount + 1)
    (hm : shl1 s._adcResolution = some m) :
    ∃ s', SCT013.update sqrt s x = some (s', true)
      ∧ s'._sampleCount = 0
      ∧ s'._samplesToAverage = s._samplesToAverage
      ∧ s'._adcResolution = s._adcResolution := by
  unfold SCT013.update
  simp [not_le.mpr hmax, hT, rmsAmps_isSome hm]

theorem SCT013.legacyUpdates_flags (sqrt : ℚ → ℚ) (xs : List Int) :
    ∀ (s : SCT013) (k : Nat) (m : Int), s._samplesToAverage = 1000 →
      s._sampleCount = (k : Int) → k < 1000 → shl1 s._adcResolution = some m →
      ∃ s', SCT013.updates sqrt s xs
        = some (s', (List.range xs.length).map (fun i => decide ((i + 1 + k) % 1000 = 0))) := by
  induction xs with
  | nil => intro s k m _ _ _ _; exact ⟨s, rfl⟩
  | cons x xs ih =>
    intro s k m hT hk hlt hm
    have hmax : s._sampleCount < INT_MAX := by rw [hk]; unfold INT_MAX; omega
    by_cases h999 : k = 999
    · have hge : s._samplesToAverage ≤ s._sampleCount + 1 := by rw [hT, hk]; omega
      obtain ⟨s1, hu, hc, hT1, hr1⟩ := SCT013.legacyUpdate_close sqrt s x hmax hge hm
      obtain ⟨s2, h2⟩ := ih s1 0 m (hT1.trans hT) (by simpa using hc) (by omega) (hr1 ▸ hm)
      refine ⟨s2, ?_⟩
      simp only [SCT013.updates, hu, h2, List.length_cons, List.range_succ_eq_map,
        List.map_cons, List.map_map]
      subst h999
      simp [Function.comp_def, Nat.succ_eq_add_one]
      intro a _
      omega
    · have hlt' : s._sampleCount + 1 < s._samplesToAverage := by rw [hT, hk]; omega
      obtain ⟨s1, hu, hc, hT1, hr1⟩ := SCT013.legacyUpdate_open sqrt s x hmax hlt'
      obtain ⟨s2, h2⟩ := ih s1 (k + 1) m (hT1.trans hT) (by rw [hc, hk]; push_cast; ring)
        (by omega) (hr1 ▸ hm)
      refine ⟨s2, ?_⟩
      simp only [SCT013.updates, hu, h2, List.length_cons, List.range_succ_eq_map,
        List.map_cons, List.map_map]
      simp [Function.comp_def, Nat.succ_eq_add_one]
      refine ⟨by omega, ?_⟩
      intro a _
      have : a + 1 + 1 + k = a + 1 + (k + 1) := by ring
      rw [this]

theorem SCT013.legacyConstruct_eq_some {pin : Int} {v : ℚ} {r : Int} {f0 : ℚ} {s0 : SCT013}
    (h : SCT013.construct pin v r f0 = some s0 ∨
      ∃ esp32, SCT013.constructAuto esp32 pin f0 = some s0) :
    s0._samplesToAverage = 1000 ∧ s0._sampleCount = 0 ∧
      ∃ m, shl1 s0._adcResolution = some m := by
  rcases h with h | ⟨esp32, h⟩
  · unfold SCT013.construct at h
    cases hm : shl1 r with
    | none => simp [hm] at h
    | some m =>
      simp only [hm, Option.some.injEq] at h
      subst h
      exact ⟨rfl, rfl, m, hm⟩
  · unfold SCT013.constructAuto at h
    cases hm : shl1 (if esp32 = true then 12 else 10) with
    | none => simp [hm] at h
    | some m =>
      simp only [hm, Option.some.injEq] at h
      subst h
      exact ⟨rfl, rfl, m, hm⟩

theorem legacyDemo_update :
    SCT013.update floorSqrt legacyDemo 512 = some (legacyDemoAfter, true) := by
  have h3 : shl1 10 = some 1024 := by decide
  simp [SCT013.update, legacyDemo, legacyDemoAfter, INT_MAX, h3, rmsAmps, Dbl.div, Dbl.sqrt,
    Dbl.mul]
  norm_num [floorSqrt_four]

end Legacy

namespace Current

theorem SCT013.update_eq_some {sqrt : ℚ → ℚ} {s s' : SCT013} {t0 t1 : Nat} {x : Int} {b : Bool}
    (h : SCT013.update sqrt s t0 x t1 = some (s', b)) :
    s._sampleCount < INT_MAX ∧
    s'._offsetI = s._offsetI + ((x : ℚ) - s._offsetI) / (if 0 < s._tareCount then 4 else 1024) ∧
    s'._filteredI = (x : ℚ) - s'._offsetI ∧
    s'._tareCount = (if 0 < s._tareCount then s._tareCount - 1 else s._tareCount) ∧
    s'._startTime = (if s._sampleCount = 0 then t0 % ULONG_MOD else s._startTime) ∧
    (s'._pin = s._pin ∧ s'._voltageReference = s._voltageReference ∧
      s'._adcResolution = s._adcResolution ∧ s'._calibration = s._calibration ∧
      s'._frequency = s._frequency) ∧
    ∃ d, windowDuration s._frequency = some d ∧
      ((b = true ∧ d ≤ usub t1 s'._startTime ∧ s'._sumI = 0 ∧ s'._sampleCount = 0 ∧
          rmsAmps sqrt (s._sumI + s'._filteredI * s'._filteredI) (s._sampleCount + 1)
            s._adcResolution s._voltageReference s._calibration = some s'._lastAmps)
        ∨ (b = false ∧ usub t1 s'._startTime < d ∧
            s'._sumI = s._sumI + s'._filteredI * s'._filteredI ∧
            s'._sampleCount = s._sampleCount + 1 ∧ s'._lastAmps = s._lastAmps)) := by
  unfold SCT013.update at h
  by_cases hmax : INT_MAX ≤ s._sampleCount
  · simp [hmax] at h
  cases hd : windowDuration s._frequency with
  | none => simp [hmax, hd] at h
  | some d =>
    have hoff : (if 0 < s._tareCount then s._offsetI + ((x : ℚ) - s._offsetI) / 4
          else s._offsetI + ((x : ℚ) - s._offsetI) / 1024)
        = s._offsetI + ((x : ℚ) - s._offsetI) / (if 0 < s._tareCount then 4 else 1024) := by
      split_ifs <;> rfl
    by_cases hel : d ≤ usub t1 (if s._sampleCount = 0 then t0 % ULONG_MOD else s._startTime)
    · simp only [hmax, hd, hel, if_true, if_false] at h
      generalize hr : rmsAmps sqrt _ _ _ _ _ = r at h
      cases r with
      | none => simp at h
      | some amps =>
        simp only [Option.some.injEq, Prod.mk.injEq] at h
        obtain ⟨rfl, rfl⟩ := h
        exact ⟨not_le.mp hmax, hoff, rfl, rfl, rfl, ⟨rfl, rfl, rfl, rfl, rfl⟩, d, rfl,
          Or.inl ⟨rfl, hel, rfl, rfl, hr⟩⟩
    · simp only [hmax, hd, hel, if_true, if_false] at h
      simp only [Option.some.injEq, Prod.mk.injEq] at h
      obtain ⟨rfl, rfl⟩ := h
      exact ⟨not_le.mp hmax, hoff, rfl, rfl, rfl, ⟨rfl, rfl, rfl, rfl, rfl⟩, d, rfl,
        Or.inr ⟨rfl, not_le.mp hel, rfl, rfl, rfl⟩⟩

theorem SCT013.update_isSome (sqrt : ℚ → ℚ) (s : SCT013) (x : Int)
    {d : Nat} {m : Int} (t0 t1 : Nat) (hmax : s._sampleCount < INT_MAX)
    (hd : windowDuration s._frequency = some d) (hm : shl1 s._adcResolution = some m) :
    ∃ s', SCT013.update sqrt s t0 x t1
      = some (s', decide (d ≤ usub t1 (if s._sampleCount = 0 then t0 % ULONG_MOD
          else s._startTime))) := by
  unfold SCT013.update
  by_cases hel : d ≤ usub t1 (if s._sampleCount = 0 then t0 % ULONG_MOD else s._startTime)
  · simp [not_le.mpr hmax, hd, hel, rmsAmps_isSome hm]
  · simp [not_le.mpr hmax, hd, hel]

theorem demo_update_closed :
    SCT013.update floorSqrt demo 0 516 1200 = some (demoClosed, true) := by
  have h1 : windowDuration 50 = some 200 := by decide
  have h2 : usub 1200 1000 = 200 := by decide
  have h3 : shl1 10 = some 1024 := by decide
  simp [SCT013.update, demo, demoClosed, INT_MAX, h1, h2, h3, rmsAmps, Dbl.div, Dbl.sqrt,
    Dbl.mul]
  norm_num [floorSqrt_four]

theorem demo_update_open :
    SCT013.update floorSqrt demo 0 516 1100 = some (demoOpen, false) := by
  have h1 : windowDuration 50 = some 200 := by decide
  have h2 : usub 1100 1000 = 100 := by decide
  simp [SCT013.update, demo, demoOpen, INT_MAX, h1, h2]
  norm_num

end Current


namespace Legacy

theorem SCT013.legacySampleLoop_frame (adc : Nat → Int) (k : Nat) :
    ∀ (s : SCT013) (sumI : ℚ) (i : Nat),
      (SCT013.sampleLoop adc s sumI i k).1
        = { s with
            _offsetI := (SCT013.sampleLoop adc s sumI i k).1._offsetI
            _filteredI := (SCT013.sampleLoop adc s sumI i k).1._filteredI } := by
  induction k with
  | zero => intro s sumI i; rfl
  | succ k ih =>
    intro s sumI i
    simp only [SCT013.sampleLoop]
    rw [ih]

end Legacy

namespace Current

theorem SCT013.sampleLoop_frame (adc : Nat → Int) (k : Nat) :
    ∀ (s : SCT013) (sumI : ℚ) (i : Nat),
      (SCT013.sampleLoop adc s sumI i k).1
        = { s with
            _offsetI := (SCT013.sampleLoop adc s sumI i k).1._offsetI
            _filteredI := (SCT013.sampleLoop adc s sumI i k).1._filteredI } := by
  induction k with
  | zero => intro s sumI i; rfl
  | succ k ih =>
    intro s sumI i
    simp only [SCT013.sampleLoop]
    rw [ih]

theorem SCT013.timedLoop_frame (clock : Nat → Nat) (adc : Nat → Int) (start duration : Nat)
    (fuel : Nat) :
    ∀ (s : SCT013) (sumI : ℚ) (count : Int) (i : Nat) (r : SCT013 × ℚ × Int),
      SCT013.timedLoop clock adc start duration s sumI count i fuel = some r →
      r.1 = { s with _offsetI := r.1._offsetI, _filteredI := r.1._filteredI } := by
  induction fuel with
  | zero => intro s sumI count i r h; simp [SCT013.timedLoop] at h
  | succ fuel ih =>
    intro s sumI count i r h
    simp only [SCT013.timedLoop] at h
    by_cases hc : usub (clock (i + 1)) start < duration
    · by_cases hmax : INT_MAX ≤ count
      · simp [hc, hmax] at h
      · simp only [hc, hmax, if_true, if_false] at h
        have := ih _ _ _ _ r h
        rw [this]
    · simp only [hc, if_false, Option.some.injEq] at h
      subst h
      rfl

theorem SCT013.updates_tare (sqrt : ℚ → ℚ) (ticks : List Tick) :
    ∀ (s s' : SCT013) (flags : List Bool), 0 ≤ s._tareCount →
      SCT013.updates sqrt s ticks = some (s', flags) →
      s'._tareCount = max (s._tareCount - ticks.length) 0 := by
  induction ticks with
  | nil =>
    intro s s' flags h0 h
    simp only [SCT013.updates, Option.some.injEq, Prod.mk.injEq] at h
    obtain ⟨rfl, -⟩ := h
    simp [h0]
  | cons x xs ih =>
    intro s s' flags h0 h
    simp only [SCT013.updates] at h
    cases hu : SCT013.update sqrt s x.t0 x.sampleI x.t1 with
    | none => simp [hu] at h
    | some r =>
      obtain ⟨s1, b⟩ := r
      simp only [hu] at h
      cases hr : SCT013.updates sqrt s1 xs with
      | none => simp [hr] at h
      | some r2 =>
        obtain ⟨s2, bs⟩ := r2
        simp only [hr, Option.some.injEq, Prod.mk.injEq] at h
        obtain ⟨rfl, -⟩ := h
        obtain ⟨-, -, -, ht, -⟩ := SCT013.update_eq_some hu
        have h1 : 0 ≤ s1._tareCount := by rw [ht]; split_ifs <;> omega
        rw [ih s1 s2 bs h1 hr, ht]
        simp only [List.length_cons, Nat.cast_add, Nat.cast_one]
        split_ifs <;> omega

theorem SCT013.updates_isSome (sqrt : ℚ → ℚ) (ticks : List Tick) :
    ∀ (s : SCT013) (d : Nat) (m : Int), windowDuration s._frequency = some d →
      shl1 s._adcResolution = some m → 0 ≤ s._sampleCount →
      s._sampleCount + ticks.length < INT_MAX →
      ∃ s' flags, SCT013.updates sqrt s ticks = some (s', flags) := by
  induction ticks with
  | nil => intro s d m _ _ _ _; exact ⟨s, [], rfl⟩
  | cons x xs ih =>
    intro s d m hd hm h0 hlen
    simp only [List.length_cons, Nat.cast_add, Nat.cast_one] at hlen
    obtain ⟨s1, hu⟩ := SCT013.update_isSome sqrt s x.sampleI x.t0 x.t1
      (by omega) hd hm
    obtain ⟨-, -, -, -, -, ⟨-, -, hr, -, hf⟩, d', -, hb⟩ := SCT013.update_eq_some hu
    have hc : 0 ≤ s1._sampleCount ∧ s1._sampleCount ≤ s._sampleCount + 1 := by
      rcases hb with ⟨-, -, -, hc, -⟩ | ⟨-, -, -, hc, -⟩ <;> rw [hc] <;> omega
    obtain ⟨s2, bs, h2⟩ := ih s1 d m (hf ▸ hd) (hr ▸ hm) hc.1 (by omega)
    exact ⟨s2, decide (d ≤ usub x.t1 (if s._sampleCount = 0 then x.t0 % ULONG_MOD
      else s._startTime)) :: bs, by simp only [SCT013.updates, hu, h2]⟩

end Current

theorem floorSqrt_demo : floorSqrt (1046529 / 65536) = 3 := by
  have h : ⌊(1046529 / 65536 : ℚ)⌋₊ = 15 := by
    rw [Nat.floor_eq_iff (by norm_num)]
    constructor <;> norm_num
  simp only [floorSqrt, h]
  norm_num

namespace Current

theorem demo_readAmpsSamples :
    SCT013.readAmpsSamples floorSqrt demo (fun _ => 516) 1
      = some (demoRead, some (15 / 1024)) := by
  have h3 : shl1 10 = some 1024 := by decide
  have e1 : (516 : ℚ) - (512 + (516 - 512) / 1024) = 1023 / 256 := by norm_num
  have e2 : (512 : ℚ) + (516 - 512) / 1024 = 131073 / 256 := by norm_num
  have e3 : (1023 / 256 : ℚ) * (1023 / 256) = 1046529 / 65536 := by norm_num
  simp [SCT013.readAmpsSamples, SCT013.sampleLoop, demo, demoRead, h3, rmsAmps, Dbl.div,
    Dbl.sqrt, Dbl.mul, e1, e2, e3]
  norm_num
  rw [floorSqrt_demo]
  norm_num

theorem demo_readAmps :
    SCT013.readAmps floorSqrt demo (demoClock 100) (fun _ => 516) 2
      = some (demoRead, some (15 / 1024)) := by
  have h1 : windowDuration 50 = some 200 := by decide
  have h2 : usub (demoClock 100 1) (demoClock 100 0 % ULONG_MOD) = 100 := by decide
  have h2' : usub (demoClock 100 2) (demoClock 100 0 % ULONG_MOD) = 200 := by decide
  have h3 : shl1 10 = some 1024 := by decide
  have e1 : (516 : ℚ) - (512 + (516 - 512) / 1024) = 1023 / 256 := by norm_num
  have e2 : (512 : ℚ) + (516 - 512) / 1024 = 131073 / 256 := by norm_num
  have e3 : (1023 / 256 : ℚ) * (1023 / 256) = 1046529 / 65536 := by norm_num
  simp [SCT013.readAmps, SCT013.timedLoop, demo, demoRead, h1, h2, h2', h3, INT_MAX, rmsAmps,
    Dbl.div, Dbl.sqrt, Dbl.mul, e1, e2, e3]
  norm_num
  rw [floorSqrt_demo]
  norm_num

theorem demo_tared_updates :
    SCT013.updates floorSqrt (SCT013.tareNoDelay demo) [demoTick]
      = some (demoTared, [false]) := by
  have h1 : windowDuration 50 = some 200 := by decide
  have h2 : usub 1100 1000 = 100 := by decide
  simp [SCT013.updates, SCT013.update, SCT013.tareNoDelay, demo, demoTared, demoTick, INT_MAX,
    h1, h2]
  norm_num

theorem demo60_update_open :
    SCT013.update floorSqrt demo60 0 512 159 = some (demo60Open, false) := by
  have h1 : windowDuration 60 = some 160 := by decide
  have h2 : usub 159 0 = 159 := by decide
  simp [SCT013.update, demo60, demo60Open, INT_MAX, h1, h2]

theorem demo60_update_closed :
    SCT013.update floorSqrt demo60 0 512 160 = some (demo60Closed, true) := by
  have h1 : windowDuration 60 = some 160 := by decide
  have h2 : usub 160 0 = 160 := by decide
  have h3 : shl1 10 = some 1024 := by decide
  simp [SCT013.update, demo60, demo60Closed, INT_MAX, h1, h2, h3, rmsAmps, Dbl.div, Dbl.sqrt,
    Dbl.mul, floorSqrt_zero]

end Current
/-! ## Verified claims -/

/-- C1: the count-policy blocking read called with `samples = 0` does not return 0.0.
In both variants `readAmps(0)` skips the loop and evaluates `sqrt(0.0 / 0)`: whenever
the call has a defined result, that result is a NaN and the members are unchanged, so
it never is the finite value 0. -/
theorem C1_readAmps_zero_samples_is_nan (sqrt : ℚ → ℚ) (adc : Nat → Int)
    (sL : Legacy.SCT013) (sC : Current.SCT013) :
    Legacy.SCT013.readAmps sqrt sL adc 0
        = (shl1 sL._adcResolution).map (fun _ => (sL, (none : Dbl)))
      ∧ Current.SCT013.readAmpsSamples sqrt sC adc 0
        = (shl1 sC._adcResolution).map (fun _ => (sC, (none : Dbl)))
      ∧ (∀ s, Legacy.SCT013.readAmps sqrt sL adc 0 ≠ some (s, some 0))
      ∧ (∀ s, Current.SCT013.readAmpsSamples sqrt sC adc 0 ≠ some (s, some 0)) := by
  have hL : Legacy.SCT013.readAmps sqrt sL adc 0
      = (shl1 sL._adcResolution).map (fun _ => (sL, (none : Dbl))) := by
    unfold Legacy.SCT013.readAmps
    simp only [Int.toNat_zero, Legacy.SCT013.sampleLoop, Int.cast_zero, rmsAmps_zero_count]
    cases shl1 sL._adcResolution <;> rfl
  have hC : Current.SCT013.readAmpsSamples sqrt sC adc 0
      = (shl1 sC._adcResolution).map (fun _ => (sC, (none : Dbl))) := by
    unfold Current.SCT013.readAmpsSamples
    simp only [Int.toNat_zero, Current.SCT013.sampleLoop, Int.cast_zero, rmsAmps_zero_count]
    cases shl1 sC._adcResolution <;> rfl
  refine ⟨hL, hC, ?_, ?_⟩
  · intro s h
    rw [hL] at h
    cases hr : shl1 sL._adcResolution <;> simp [hr] at h
  · intro s h
    rw [hC] at h
    cases hr : shl1 sC._adcResolution <;> simp [hr] at h

/-- C2: when the first test of the `while` loop of the time-based `readAmps()` already
finds the window elapsed (no sample is taken), the call returns exactly 0 and leaves
the members unchanged; the division by the zero count is not evaluated.  This is the
case in particular for every line frequency above 1000, whose window lasts 0 ms. -/
theorem C2_readAmps_no_sample_returns_zero (sqrt : ℚ → ℚ) (s : Current.SCT013)
    (clock : Nat → Nat) (adc : Nat → Int) (fuel : Nat) :
    (∀ d, windowDuration s._frequency = some d →
        d ≤ usub (clock 1) (clock 0 % ULONG_MOD) →
        Current.SCT013.readAmps sqrt s clock adc (fuel + 1) = some (s, some 0))
      ∧ (1000 < s._frequency →
          Current.SCT013.readAmps sqrt s clock adc (fuel + 1) = some (s, some 0)) := by
  have key : ∀ d, windowDuration s._frequency = some d →
      d ≤ usub (clock 1) (clock 0 % ULONG_MOD) →
      Current.SCT013.readAmps sqrt s clock adc (fuel + 1) = some (s, some 0) := by
    intro d hd hexit
    unfold Current.SCT013.readAmps
    simp [hd, Current.SCT013.timedLoop, not_lt.mpr hexit]
  exact ⟨key, fun hf => key 0 (windowDuration_of_gt hf) (Nat.zero_le _)⟩

/-- Instance at 50 Hz with a clock that advances 200 ms between two readings: the
first test already fails and the read returns 0. -/
theorem C2_readAmps_no_sample_returns_zero_witness :
    windowDuration Current.demo._frequency = some 200
      ∧ 200 ≤ usub (demoClock 200 1) (demoClock 200 0 % ULONG_MOD)
      ∧ Current.SCT013.readAmps floorSqrt Current.demo (demoClock 200) (fun _ => 516) 1
          = some (Current.demo, some 0) :=
  ⟨by decide, by decide,
    (C2_readAmps_no_sample_returns_zero floorSqrt Current.demo (demoClock 200)
      (fun _ => 516) 0).1 200 (by decide) (by decide)⟩

/-- C3: in the legacy variant with target 1000, from a state whose `_sampleCount` is
`k` with `0 ≤ k < 1000`, `update()` returns true exactly when `k = 999` (it does
return: false for `k < 999`, true for `k = 999` when `1 << _adcResolution` is
defined).  From a freshly constructed meter the `n`-th call returns true exactly when
`n` is a multiple of 1000, for every sequence of samples. -/
theorem C3_count_policy_period (sqrt : ℚ → ℚ) (s : Legacy.SCT013) (x : Int)
    (hT : s._samplesToAverage = 1000) (h0 : 0 ≤ s._sampleCount)
    (h1 : s._sampleCount < 1000) :
    (∀ s' b, Legacy.SCT013.update sqrt s x = some (s', b) →
        (b = true ↔ s._sampleCount = 999))
      ∧ (s._sampleCount < 999 → ∃ s', Legacy.SCT013.update sqrt s x = some (s', false))
      ∧ (s._sampleCount = 999 → ∀ m, shl1 s._adcResolution = some m →
          ∃ s', Legacy.SCT013.update sqrt s x = some (s', true))
      ∧ (∀ (pin : Int) (v : ℚ) (r : Int) (f0 : ℚ) (s0 : Legacy.SCT013) (xs : List Int),
          (Legacy.SCT013.construct pin v r f0 = some s0 ∨
            ∃ esp32, Legacy.SCT013.constructAuto esp32 pin f0 = some s0) →
          ∃ s', Legacy.SCT013.updates sqrt s0 xs
            = some (s', (List.range xs.length).map (fun i => decide ((i + 1) % 1000 = 0)))) := by
  have hmax : s._sampleCount < INT_MAX := by unfold INT_MAX; omega
  refine ⟨?_, ?_, ?_, ?_⟩
  · intro s' b h
    obtain ⟨-, hb | hb⟩ := Legacy.SCT013.legacyUpdate_eq_some h
    · obtain ⟨rfl, hge, -⟩ := hb
      rw [hT] at hge
      simp only [true_iff]
      omega
    · obtain ⟨rfl, hlt, -⟩ := hb
      rw [hT] at hlt
      simp only [Bool.false_eq_true, false_iff]
      omega
  · intro hk
    obtain ⟨s', h, -⟩ := Legacy.SCT013.legacyUpdate_open sqrt s x hmax
      (by rw [hT]; omega)
    exact ⟨s', h⟩
  · intro hk m hm
    obtain ⟨s', h, -⟩ := Legacy.SCT013.legacyUpdate_close sqrt s x hmax
      (by rw [hT]; omega) hm
    exact ⟨s', h⟩
  · intro pin v r f0 s0 xs hc
    obtain ⟨hT0, hc0, m, hm⟩ := Legacy.SCT013.legacyConstruct_eq_some hc
    obtain ⟨s', h⟩ := Legacy.SCT013.legacyUpdates_flags sqrt xs s0 0 m hT0 (by simpa using hc0)
      (by omega) hm
    exact ⟨s', by simpa using h⟩

/-- Instance on `Legacy.legacyDemo`, whose count is 999: the call returns true. -/
theorem C3_count_policy_period_witness :
    Legacy.legacyDemo._samplesToAverage = 1000 ∧ 0 ≤ Legacy.legacyDemo._sampleCount
      ∧ Legacy.legacyDemo._sampleCount < 1000
      ∧ Legacy.SCT013.update floorSqrt Legacy.legacyDemo 512 = some (Legacy.legacyDemoAfter, true)
      ∧ (true = true ↔ Legacy.legacyDemo._sampleCount = 999) :=
  ⟨rfl, by decide, by decide, Legacy.legacyDemo_update,
    (C3_count_policy_period floorSqrt Legacy.legacyDemo 512 rfl (by decide) (by decide)).1
      Legacy.legacyDemoAfter true Legacy.legacyDemo_update⟩

/-- C4: whenever `update()` returns true, in the legacy and in the current variant,
the stored `_lastAmps` is the finalization formula of the specification applied to
`n = ` pre-state `_sampleCount + 1` and `S = ` pre-state `_sumI + _filteredI²`, where
`_filteredI` is the sample just read minus the updated bias: for a finite calibration
`c`, `n ≠ 0` and `S / n ≥ 0` it is `sqrt(S / n) / 2^bits * vref * c`. -/
theorem C4_finalized_result_formula (sqrt : ℚ → ℚ) :
    (∀ (s s' : Legacy.SCT013) (x : Int), Legacy.SCT013.update sqrt s x = some (s', true) →
        s'._filteredI = (x : ℚ) - s'._offsetI ∧
        s'._lastAmps = specResultAmps sqrt (s._sumI + s'._filteredI * s'._filteredI)
          (s._sampleCount + 1) s._adcResolution s._voltageReference s._calibration ∧
        (∀ c, s._calibration = some c → s._sampleCount + 1 ≠ 0 →
          0 ≤ (s._sumI + s'._filteredI * s'._filteredI) / ((s._sampleCount + 1 : Int) : ℚ) →
          s'._lastAmps = some (sqrt ((s._sumI + s'._filteredI * s'._filteredI)
              / ((s._sampleCount + 1 : Int) : ℚ))
            / (2 : ℚ) ^ s._adcResolution.toNat * s._voltageReference * c)))
      ∧ (∀ (s s' : Current.SCT013) (t0 : Nat) (x : Int) (t1 : Nat),
          Current.SCT013.update sqrt s t0 x t1 = some (s', true) →
          s'._filteredI = (x : ℚ) - s'._offsetI ∧
          s'._lastAmps = specResultAmps sqrt (s._sumI + s'._filteredI * s'._filteredI)
            (s._sampleCount + 1) s._adcResolution s._voltageReference s._calibration ∧
          (∀ c, s._calibration = some c → s._sampleCount + 1 ≠ 0 →
            0 ≤ (s._sumI + s'._filteredI * s'._filteredI) / ((s._sampleCount + 1 : Int) : ℚ) →
            s'._lastAmps = some (sqrt ((s._sumI + s'._filteredI * s'._filteredI)
                / ((s._sampleCount + 1 : Int) : ℚ))
              / (2 : ℚ) ^ s._adcResolution.toNat * s._voltageReference * c))) := by
  constructor
  · intro s s' x h
    obtain ⟨-, hb | hb⟩ := Legacy.SCT013.legacyUpdate_eq_some h
    · obtain ⟨-, -, amps, hamps, rfl⟩ := hb
      have hl := rmsAmps_eq_some hamps
      refine ⟨rfl, hl, ?_⟩
      intro c hc hn hS
      simp only at hS ⊢
      rw [hl, hc]
      exact specResultAmps_finite sqrt _ _ _ _ _ hn hS
    · simp at hb
  · intro s s' t0 x t1 h
    obtain ⟨-, -, hf, -, -, -, d, -, hb | hb⟩ := Current.SCT013.update_eq_some h
    · obtain ⟨-, -, -, -, hamps⟩ := hb
      have hl := rmsAmps_eq_some hamps
      refine ⟨hf, hl, ?_⟩
      intro c hc hn hS
      rw [hl, hc]
      exact specResultAmps_finite sqrt _ _ _ _ _ hn hS
    · simp at hb

/-- Instances on `Legacy.legacyDemo` and `Current.demo`, both closing their window. -/
theorem C4_finalized_result_formula_witness :
    (Legacy.SCT013.update floorSqrt Legacy.legacyDemo 512 = some (Legacy.legacyDemoAfter, true)
        ∧ Legacy.legacyDemoAfter._lastAmps
          = specResultAmps floorSqrt
              (Legacy.legacyDemo._sumI + Legacy.legacyDemoAfter._filteredI * Legacy.legacyDemoAfter._filteredI)
              (Legacy.legacyDemo._sampleCount + 1) Legacy.legacyDemo._adcResolution
              Legacy.legacyDemo._voltageReference Legacy.legacyDemo._calibration)
      ∧ (Current.SCT013.update floorSqrt Current.demo 0 516 1200
            = some (Current.demoClosed, true)
          ∧ Current.demoClosed._lastAmps
            = specResultAmps floorSqrt
                (Current.demo._sumI
                  + Current.demoClosed._filteredI * Current.demoClosed._filteredI)
                (Current.demo._sampleCount + 1) Current.demo._adcResolution
                Current.demo._voltageReference Current.demo._calibration) :=
  ⟨⟨Legacy.legacyDemo_update,
      ((C4_finalized_result_formula floorSqrt).1 Legacy.legacyDemo Legacy.legacyDemoAfter 512
        Legacy.legacyDemo_update).2.1⟩,
    ⟨Current.demo_update_closed,
      ((C4_finalized_result_formula floorSqrt).2 Current.demo Current.demoClosed 0 516 1200
        Current.demo_update_closed).2.1⟩⟩

/-- C5: in both variants, after an `update()` that returns true `_sumI` and
`_sampleCount` are both 0; after an `update()` that returns false neither was reset:
`_sampleCount` is the previous value plus one and `_sumI` the previous value plus the
square of the filtered sample. -/
theorem C5_accumulator_reset_together (sqrt : ℚ → ℚ) :
    (∀ (s s' : Legacy.SCT013) (x : Int) (b : Bool),
        Legacy.SCT013.update sqrt s x = some (s', b) →
        (b = true → s'._sumI = 0 ∧ s'._sampleCount = 0) ∧
        (b = false → s'._sampleCount = s._sampleCount + 1 ∧
          s'._sumI = s._sumI + s'._filteredI * s'._filteredI))
      ∧ (∀ (s s' : Current.SCT013) (t0 : Nat) (x : Int) (t1 : Nat) (b : Bool),
          Current.SCT013.update sqrt s t0 x t1 = some (s', b) →
          (b = true → s'._sumI = 0 ∧ s'._sampleCount = 0) ∧
          (b = false → s'._sampleCount = s._sampleCount + 1 ∧
            s'._sumI = s._sumI + s'._filteredI * s'._filteredI)) := by
  constructor
  · intro s s' x b h
    obtain ⟨-, hb | hb⟩ := Legacy.SCT013.legacyUpdate_eq_some h
    · obtain ⟨rfl, -, amps, -, rfl⟩ := hb
      simp
    · obtain ⟨rfl, -, rfl⟩ := hb
      simp
  · intro s s' t0 x t1 b h
    obtain ⟨-, -, -, -, -, -, d, -, hb | hb⟩ := Current.SCT013.update_eq_some h
    · obtain ⟨rfl, -, hs, hc, -⟩ := hb
      simp [hs, hc]
    · obtain ⟨rfl, -, hs, hc, -⟩ := hb
      simp [hs, hc]

/-- Instances on a closing call (`Legacy.legacyDemo`) and on a call that keeps the
window open (`Current.demo` at 1100 ms). -/
theorem C5_accumulator_reset_together_witness :
    (Legacy.SCT013.update floorSqrt Legacy.legacyDemo 512 = some (Legacy.legacyDemoAfter, true)
        ∧ Legacy.legacyDemoAfter._sumI = 0 ∧ Legacy.legacyDemoAfter._sampleCount = 0)
      ∧ (Current.SCT013.update floorSqrt Current.demo 0 516 1100
            = some (Current.demoOpen, false)
          ∧ Current.demoOpen._sampleCount = Current.demo._sampleCount + 1
          ∧ Current.demoOpen._sumI
            = Current.demo._sumI + Current.demoOpen._filteredI * Current.demoOpen._filteredI) :=
  ⟨⟨Legacy.legacyDemo_update,
      ((C5_accumulator_reset_together floorSqrt).1 Legacy.legacyDemo Legacy.legacyDemoAfter 512 true
        Legacy.legacyDemo_update).1 rfl⟩,
    ⟨Current.demo_update_open,
      ((C5_accumulator_reset_together floorSqrt).2 Current.demo Current.demoOpen 0 516 1100
        false Current.demo_update_open).2 rfl⟩⟩


/-- C6: both blocking reads of the current variant, `readAmps()` and
`readAmps(samples)`, and the blocking read of the legacy variant return with `_sumI`,
`_sampleCount` and `_lastAmps` exactly as they were before the call, whatever the
samples and clock readings. -/
theorem C6_blocking_reads_frame (sqrt : ℚ → ℚ) :
    (∀ (s s' : Current.SCT013) (clock : Nat → Nat) (adc : Nat → Int) (fuel : Nat) (v : Dbl),
        Current.SCT013.readAmps sqrt s clock adc fuel = some (s', v) →
        s'._sumI = s._sumI ∧ s'._sampleCount = s._sampleCount ∧ s'._lastAmps = s._lastAmps)
      ∧ (∀ (s s' : Current.SCT013) (adc : Nat → Int) (samples : Int) (v : Dbl),
          Current.SCT013.readAmpsSamples sqrt s adc samples = some (s', v) →
          s'._sumI = s._sumI ∧ s'._sampleCount = s._sampleCount ∧ s'._lastAmps = s._lastAmps)
      ∧ (∀ (s s' : Legacy.SCT013) (adc : Nat → Int) (samples : Int) (v : Dbl),
          Legacy.SCT013.readAmps sqrt s adc samples = some (s', v) →
          s'._sumI = s._sumI ∧ s'._sampleCount = s._sampleCount ∧ s'._lastAmps = s._lastAmps) := by
  refine ⟨?_, ?_, ?_⟩
  · intro s s' clock adc fuel v h
    unfold Current.SCT013.readAmps at h
    cases hd : windowDuration s._frequency with
    | none => simp [hd] at h
    | some d =>
      simp only [hd] at h
      cases hl : Current.SCT013.timedLoop clock adc (clock 0 % ULONG_MOD) d s 0 0 0 fuel with
      | none => simp [hl] at h
      | some r =>
        obtain ⟨s1, sumI, count⟩ := r
        have hf := Current.SCT013.timedLoop_frame clock adc _ d fuel s 0 0 0 _ hl
        simp only [hl] at h
        have hs : s' = s1 := by
          by_cases hc : count = 0
          · simp only [hc, if_true, Option.some.injEq, Prod.mk.injEq] at h
            exact h.1.symm
          · simp only [hc, if_false] at h
            cases hr : rmsAmps sqrt sumI count s1._adcResolution s1._voltageReference
                s1._calibration with
            | none => simp [hr] at h
            | some amps =>
              simp only [hr, Option.some.injEq, Prod.mk.injEq] at h
              exact h.1.symm
        subst hs
        simp only at hf
        rw [hf]
        exact ⟨rfl, rfl, rfl⟩
  · intro s s' adc samples v h
    unfold Current.SCT013.readAmpsSamples at h
    simp only at h
    split at h
    · simp at h
    · simp only [Option.some.injEq, Prod.mk.injEq] at h
      obtain ⟨rfl, -⟩ := h
      rw [Current.SCT013.sampleLoop_frame]
      exact ⟨rfl, rfl, rfl⟩
  · intro s s' adc samples v h
    unfold Legacy.SCT013.readAmps at h
    simp only at h
    split at h
    · simp at h
    · simp only [Option.some.injEq, Prod.mk.injEq] at h
      obtain ⟨rfl, -⟩ := h
      rw [Legacy.SCT013.legacySampleLoop_frame]
      exact ⟨rfl, rfl, rfl⟩

/-- Instances on `Current.demo`: each blocking read takes the single sample 516. -/
theorem C6_blocking_reads_frame_witness :
    (Current.SCT013.readAmps floorSqrt Current.demo (demoClock 100) (fun _ => 516) 2
          = some (Current.demoRead, some (15 / 1024))
        ∧ Current.demoRead._sumI = Current.demo._sumI
        ∧ Current.demoRead._sampleCount = Current.demo._sampleCount
        ∧ Current.demoRead._lastAmps = Current.demo._lastAmps)
      ∧ (Current.SCT013.readAmpsSamples floorSqrt Current.demo (fun _ => 516) 1
            = some (Current.demoRead, some (15 / 1024))
          ∧ Current.demoRead._sumI = Current.demo._sumI
          ∧ Current.demoRead._sampleCount = Current.demo._sampleCount
          ∧ Current.demoRead._lastAmps = Current.demo._lastAmps) :=
  ⟨⟨Current.demo_readAmps,
      (C6_blocking_reads_frame floorSqrt).1 Current.demo Current.demoRead (demoClock 100)
        (fun _ => 516) 2 (some (15 / 1024)) Current.demo_readAmps⟩,
    ⟨Current.demo_readAmpsSamples,
      (C6_blocking_reads_frame floorSqrt).2.1 Current.demo Current.demoRead (fun _ => 516) 1
        (some (15 / 1024)) Current.demo_readAmpsSamples⟩⟩

/-- C7: one `update()` of the current variant sets the bias to
`bias + (x - bias) / K` and the filtered sample to `x` minus this new bias, with
`K = 4` when the tare counter was positive before the call and `K = 1024` otherwise,
whether the call returns true (window finalized) or false. -/
theorem C7_bias_tracker_step (sqrt : ℚ → ℚ) (s s' : Current.SCT013) (t0 : Nat) (x : Int)
    (t1 : Nat) (b : Bool) (h : Current.SCT013.update sqrt s t0 x t1 = some (s', b)) :
    s'._offsetI
        = s._offsetI + ((x : ℚ) - s._offsetI) / (if 0 < s._tareCount then 4 else 1024)
      ∧ s'._filteredI = (x : ℚ) - s'._offsetI := by
  obtain ⟨-, ho, hf, -⟩ := Current.SCT013.update_eq_some h
  exact ⟨ho, hf⟩

/-- Instance on `Current.demo` (tare counter 3, so the divisor is 4) with a call that
closes the window. -/
theorem C7_bias_tracker_step_witness :
    Current.SCT013.update floorSqrt Current.demo 0 516 1200 = some (Current.demoClosed, true)
      ∧ Current.demoClosed._offsetI
        = Current.demo._offsetI + (((516 : Int) : ℚ) - Current.demo._offsetI)
            / (if 0 < Current.demo._tareCount then 4 else 1024)
      ∧ Current.demoClosed._filteredI = ((516 : Int) : ℚ) - Current.demoClosed._offsetI :=
  ⟨Current.demo_update_closed,
    C7_bias_tracker_step floorSqrt Current.demo Current.demoClosed 0 516 1200 true
      Current.demo_update_closed⟩

/-- C8: `tareNoDelay()` sets the tare counter to 100.  After `n` further calls of
`update()` the counter is `100 - n` for `n ≤ 100` and 0 afterwards, never negative;
`getTareStatus()` is false for `n < 100` and true for `n ≥ 100`; and the call that
follows uses the divisor 4 exactly when `n < 100`.  The calls do return whenever the
frequency is non-zero, `1 << _adcResolution` is defined and the sample count stays in
range. -/
theorem C8_tare_budget (sqrt : ℚ → ℚ) (s : Current.SCT013) :
    (Current.SCT013.tareNoDelay s)._tareCount = 100
      ∧ (∀ (ticks : List Current.Tick) (s' : Current.SCT013) (flags : List Bool),
          Current.SCT013.updates sqrt (Current.SCT013.tareNoDelay s) ticks = some (s', flags) →
          s'._tareCount = max (100 - (ticks.length : Int)) 0
          ∧ 0 ≤ s'._tareCount
          ∧ Current.SCT013.getTareStatus s' = decide (100 ≤ ticks.length)
          ∧ (∀ (x : Current.Tick) (s'' : Current.SCT013) (b : Bool),
              Current.SCT013.update sqrt s' x.t0 x.sampleI x.t1 = some (s'', b) →
              s''._offsetI = s'._offsetI + ((x.sampleI : ℚ) - s'._offsetI)
                / (if ticks.length < 100 then 4 else 1024)))
      ∧ (∀ (ticks : List Current.Tick) (d : Nat) (m : Int),
          windowDuration s._frequency = some d → shl1 s._adcResolution = some m →
          0 ≤ s._sampleCount → s._sampleCount + ticks.length < INT_MAX →
          ∃ s' flags,
            Current.SCT013.updates sqrt (Current.SCT013.tareNoDelay s) ticks
              = some (s', flags)) := by
  refine ⟨rfl, ?_, ?_⟩
  · intro ticks s' flags h
    have ht := Current.SCT013.updates_tare sqrt ticks _ s' flags
      (by simp [Current.SCT013.tareNoDelay]) h
    simp only [Current.SCT013.tareNoDelay] at ht
    refine ⟨ht, by rw [ht]; exact le_max_right _ _, ?_, ?_⟩
    · unfold Current.SCT013.getTareStatus
      rw [ht]
      by_cases hn : 100 ≤ ticks.length
      · simp only [hn, decide_True, decide_eq_true_eq]; omega
      · simp only [hn, decide_False, decide_eq_false_iff_not]; omega
    · intro x s'' b hu
      obtain ⟨-, ho, -⟩ := Current.SCT013.update_eq_some hu
      rw [ho, ht]
      by_cases hn : ticks.length < 100
      · rw [if_pos hn, if_pos (by omega)]
      · rw [if_neg hn, if_neg (by omega)]
  · intro ticks d m hd hm h0 hlen
    exact Current.SCT013.updates_isSome sqrt ticks (Current.SCT013.tareNoDelay s) d m hd hm
      h0 hlen

/-- Instances on `Current.demo`: one call after `tareNoDelay()` leaves the counter at
99 with the tare not complete, and a run of 100 calls returns with the tare
complete. -/
theorem C8_tare_budget_witness :
    (Current.SCT013.updates floorSqrt (Current.SCT013.tareNoDelay Current.demo)
          [Current.demoTick] = some (Current.demoTared, [false])
        ∧ Current.demoTared._tareCount
          = max (100 - (([Current.demoTick] : List Current.Tick).length : Int)) 0
        ∧ Current.SCT013.getTareStatus Current.demoTared
          = decide (100 ≤ ([Current.demoTick] : List Current.Tick).length))
      ∧ ∃ s' flags,
          Current.SCT013.updates floorSqrt (Current.SCT013.tareNoDelay Current.demo)
              (List.replicate 100 Current.demoTick) = some (s', flags)
            ∧ Current.SCT013.getTareStatus s' = true :=
  ⟨⟨Current.demo_tared_updates,
      ((C8_tare_budget floorSqrt Current.demo).2.1 [Current.demoTick] Current.demoTared
        [false] Current.demo_tared_updates).1,
      ((C8_tare_budget floorSqrt Current.demo).2.1 [Current.demoTick] Current.demoTared
        [false] Current.demo_tared_updates).2.2.1⟩,
    Exists.elim
      ((C8_tare_budget floorSqrt Current.demo).2.2 (List.replicate 100 Current.demoTick)
        200 1024 (by decide) (by decide) (by decide) (by decide))
      (fun s' hs' => Exists.elim hs' (fun flags h =>
        ⟨s', flags, h,
          ((C8_tare_budget floorSqrt Current.demo).2.1 (List.replicate 100 Current.demoTick)
            s' flags h).2.2.1.trans (by decide)⟩))⟩

/-- C9: evaluation of the cycle-time window.  At 50 Hz the window lasts 200 ms, but
at 60 Hz the integer division `1000 / 60 = 16` makes it 160 ms, not 166 ms: an
`update()` 159 ms after the window opened returns false and one 160 ms after it
returns true.  For every positive frequency the window is `10 * (1000 / f)` ms with
the truncating integer division. -/
theorem C9_window_duration_60Hz_is_160ms :
    windowDuration 50 = some 200
      ∧ windowDuration 60 = some 160
      ∧ Current.SCT013.update floorSqrt Current.demo60 0 512 159
        = some (Current.demo60Open, false)
      ∧ Current.SCT013.update floorSqrt Current.demo60 0 512 160
        = some (Current.demo60Closed, true)
      ∧ (∀ f : Int, 0 < f → windowDuration f = some (10 * (1000 / f.toNat))) :=
  ⟨by decide, by decide, Current.demo60_update_open, Current.demo60_update_closed,
    fun _ hf => windowDuration_of_pos hf⟩

/-- C10: the termination test is correct across clock wraparound.  For a window
start `start` and a true elapsed time `e`, both below `2^32`, and the clock reading
`(start + e) mod 2^32`, the unsigned difference is `e`; hence `update()` returns true
exactly when `e` is at least the window duration (and it does return when the count
is below `INT_MAX` and `1 << _adcResolution` is defined), and the loop of `readAmps()`
stops at that check exactly when `e` is at least the duration. -/
theorem C10_wraparound_tolerated (start e : Nat) (hs : start < ULONG_MOD)
    (he : e < ULONG_MOD) :
    usub ((start + e) % ULONG_MOD) start = e
      ∧ (∀ (sqrt : ℚ → ℚ) (st st' : Current.SCT013) (t0 : Nat) (x : Int) (b : Bool),
          (if st._sampleCount = 0 then t0 % ULONG_MOD else st._startTime) = start →
          Current.SCT013.update sqrt st t0 x ((start + e) % ULONG_MOD) = some (st', b) →
          ∃ d, windowDuration st._frequency = some d ∧ (b = true ↔ d ≤ e))
      ∧ (∀ (sqrt : ℚ → ℚ) (st : Current.SCT013) (t0 : Nat) (x : Int) (d : Nat) (m : Int),
          (if st._sampleCount = 0 then t0 % ULONG_MOD else st._startTime) = start →
          st._sampleCount < INT_MAX → windowDuration st._frequency = some d →
          shl1 st._adcResolution = some m →
          ∃ st', Current.SCT013.update sqrt st t0 x ((start + e) % ULONG_MOD)
            = some (st', decide (d ≤ e)))
      ∧ (∀ (clock : Nat → Nat) (adc : Nat → Int) (d : Nat) (st : Current.SCT013) (sumI : ℚ)
          (count : Int) (i fuel : Nat), clock (i + 1) = (start + e) % ULONG_MOD →
          (d ≤ e →
            Current.SCT013.timedLoop clock adc start d st sumI count i (fuel + 1)
              = some (st, sumI, count))
          ∧ (e < d → count < INT_MAX →
            Current.SCT013.timedLoop clock adc start d st sumI count i (fuel + 1)
              = Current.SCT013.timedLoop clock adc start d
                  { st with
                    _offsetI := st._offsetI + ((adc i : ℚ) - st._offsetI) / 1024
                    _filteredI := (adc i : ℚ) - (st._offsetI + ((adc i : ℚ) - st._offsetI) / 1024) }
                  (sumI + ((adc i : ℚ) - (st._offsetI + ((adc i : ℚ) - st._offsetI) / 1024))
                    * ((adc i : ℚ) - (st._offsetI + ((adc i : ℚ) - st._offsetI) / 1024)))
                  (count + 1) (i + 1) fuel)) := by
  have hw := usub_wrap start e hs he
  refine ⟨hw, ?_, ?_, ?_⟩
  · intro sqrt st st' t0 x b hstart h
    obtain ⟨-, -, -, -, hst, -, d, hd, hb⟩ := Current.SCT013.update_eq_some h
    rw [hst, hstart, hw] at hb
    refine ⟨d, hd, ?_⟩
    rcases hb with ⟨rfl, hle, -⟩ | ⟨rfl, hlt, -⟩
    · simp [hle]
    · simp only [Bool.false_eq_true, false_iff]; omega
  · intro sqrt st t0 x d m hstart hmax hd hm
    obtain ⟨st', h⟩ := Current.SCT013.update_isSome sqrt st x t0
      ((start + e) % ULONG_MOD) hmax hd hm
    rw [hstart, hw] at h
    exact ⟨st', h⟩
  · intro clock adc d st sumI count i fuel hc
    constructor
    · intro hle
      simp [Current.SCT013.timedLoop, hc, hw, not_lt.mpr hle]
    · intro hlt hmax
      simp [Current.SCT013.timedLoop, hc, hw, hlt, not_le.mpr hmax]

/-- Instance with a window opened 296 ms before the clock wraps and 500 ms elapsed:
the clock reads 204, the difference is 500 and `update()` on `Current.demoWrap`
(window of 200 ms) returns true. -/
theorem C10_wraparound_tolerated_witness :
    4294967000 < ULONG_MOD ∧ 500 < ULONG_MOD
      ∧ usub ((4294967000 + 500) % ULONG_MOD) 4294967000 = 500
      ∧ ∃ st', Current.SCT013.update floorSqrt Current.demoWrap 0 516
          ((4294967000 + 500) % ULONG_MOD) = some (st', decide (200 ≤ 500)) :=
  ⟨by decide, by decide,
    (C10_wraparound_tolerated 4294967000 500 (by decide) (by decide)).1,
    (C10_wraparound_tolerated 4294967000 500 (by decide) (by decide)).2.2.1 floorSqrt
      Current.demoWrap 0 516 200 1024 (by decide) (by decide) (by decide) (by decide)⟩


namespace Current

theorem SCT013.construct_eq_some {pin : Int} {v : ℚ} {r f0 : Int} {fi0 : ℚ} {s : SCT013}
    (h : SCT013.construct pin v r f0 fi0 = some s) :
    ∃ m, shl1 r = some m ∧
      s = { _pin := pin, _voltageReference := v, _adcResolution := r, _calibration := some 1,
            _frequency := f0, _offsetI := ((m / 2 : Int) : ℚ), _filteredI := fi0, _sumI := 0,
            _sampleCount := 0, _startTime := 0, _lastAmps := some 0, _tareCount := 0 } := by
  unfold SCT013.construct at h
  cases hm : shl1 r with
  | none => simp [hm] at h
  | some m =>
    simp only [hm, Option.some.injEq] at h
    exact ⟨m, rfl, h.symm⟩

theorem SCT013.constructAuto_eq_some {esp32 : Bool} {pin : Int} {fi0 : ℚ} {s : SCT013}
    (h : SCT013.constructAuto esp32 pin fi0 = some s) :
    s = { _pin := pin, _voltageReference := if esp32 then 33 / 10 else 5,
          _adcResolution := if esp32 then 12 else 10, _calibration := some 1,
          _frequency := 50, _offsetI := if esp32 then 2048 else 512, _filteredI := fi0,
          _sumI := 0, _sampleCount := 0, _startTime := 0, _lastAmps := some 0,
          _tareCount := 0 } := by
  unfold SCT013.constructAuto at h
  cases esp32 with
  | false =>
    have h3 : shl1 10 = some 1024 := by decide
    simp only [Bool.false_eq_true, if_false, h3, Option.some.injEq] at h
    rw [← h]
    norm_num
  | true =>
    have h3 : shl1 12 = some 4096 := by decide
    simp only [if_true, h3, Option.some.injEq] at h
    rw [← h]
    norm_num

theorem demoManual_construct : SCT013.construct 0 5 10 0 0 = some demoManual := by
  have h3 : shl1 10 = some 1024 := by decide
  simp [SCT013.construct, h3, demoManual]

theorem demoFresh_construct : SCT013.constructAuto false 0 0 = some demoFresh := by
  have h3 : shl1 10 = some 1024 := by decide
  simp [SCT013.constructAuto, h3, demoFresh]

end Current

/-- C11: the manual constructor of the current variant never assigns `_frequency`: the
meter it builds holds whatever the member contained (`frequency0`), not the default
50 Hz that the auto-configuring constructor sets.  When that content is 0, `update()`
and `readAmps()` called before any `setFrequency()` divide 1000 by zero. -/
theorem C11_manual_constructor_leaves_frequency_unset :
    (∀ (pin : Int) (v : ℚ) (r f0 : Int) (fi0 : ℚ) (s : Current.SCT013),
        Current.SCT013.construct pin v r f0 fi0 = some s → s._frequency = f0)
      ∧ (∀ (esp32 : Bool) (pin : Int) (fi0 : ℚ) (s : Current.SCT013),
          Current.SCT013.constructAuto esp32 pin fi0 = some s → s._frequency = 50)
      ∧ Current.SCT013.construct 0 5 10 0 0 = some Current.demoManual
      ∧ Current.demoManual._frequency = 0
      ∧ (∀ (sqrt : ℚ → ℚ) (t0 : Nat) (x : Int) (t1 : Nat),
          Current.SCT013.update sqrt Current.demoManual t0 x t1 = none)
      ∧ (∀ (sqrt : ℚ → ℚ) (clock : Nat → Nat) (adc : Nat → Int) (fuel : Nat),
          Current.SCT013.readAmps sqrt Current.demoManual clock adc fuel = none) := by
  refine ⟨?_, ?_, Current.demoManual_construct, rfl, ?_, ?_⟩
  · intro pin v r f0 fi0 s h
    obtain ⟨m, -, rfl⟩ := Current.SCT013.construct_eq_some h
    rfl
  · intro esp32 pin fi0 s h
    rw [Current.SCT013.constructAuto_eq_some h]
  · intro sqrt t0 x t1
    have hd : windowDuration 0 = none := by decide
    simp [Current.SCT013.update, Current.demoManual, INT_MAX, hd]
  · intro sqrt clock adc fuel
    have hd : windowDuration 0 = none := by decide
    simp [Current.SCT013.readAmps, Current.demoManual, hd]


namespace Current

theorem SCT013.readAmps_frame {sqrt : ℚ → ℚ} {s s' : SCT013} {clock : Nat → Nat}
    {adc : Nat → Int} {fuel : Nat} {v : Dbl}
    (h : SCT013.readAmps sqrt s clock adc fuel = some (s', v)) :
    s' = { s with _offsetI := s'._offsetI, _filteredI := s'._filteredI } := by
  unfold SCT013.readAmps at h
  cases hd : windowDuration s._frequency with
  | none => simp [hd] at h
  | some d =>
    simp only [hd] at h
    cases hl : SCT013.timedLoop clock adc (clock 0 % ULONG_MOD) d s 0 0 0 fuel with
    | none => simp [hl] at h
    | some r =>
      obtain ⟨s1, sumI, count⟩ := r
      have hf := SCT013.timedLoop_frame clock adc _ d fuel s 0 0 0 _ hl
      simp only [hl] at h
      have hs : s' = s1 := by
        by_cases hc : count = 0
        · simp only [hc, if_true, Option.some.injEq, Prod.mk.injEq] at h
          exact h.1.symm
        · simp only [hc, if_false] at h
          cases hr : rmsAmps sqrt sumI count s1._adcResolution s1._voltageReference
              s1._calibration with
          | none => simp [hr] at h
          | some amps =>
            simp only [hr, Option.some.injEq, Prod.mk.injEq] at h
            exact h.1.symm
      subst hs
      exact hf

theorem SCT013.readAmpsSamples_frame {sqrt : ℚ → ℚ} {s s' : SCT013} {adc : Nat → Int}
    {samples : Int} {v : Dbl}
    (h : SCT013.readAmpsSamples sqrt s adc samples = some (s', v)) :
    s' = { s with _offsetI := s'._offsetI, _filteredI := s'._filteredI } := by
  unfold SCT013.readAmpsSamples at h
  simp only at h
  split at h
  · simp at h
  · simp only [Option.some.injEq, Prod.mk.injEq] at h
    obtain ⟨rfl, -⟩ := h
    exact SCT013.sampleLoop_frame adc _ s 0 0

theorem SCT013.call_lastAmps {sqrt : ℚ → ℚ} {s s' : SCT013} {c : Call}
    (h : SCT013.call sqrt s c = some (s', false)) : s'._lastAmps = s._lastAmps := by
  cases c with
  | begin tr br =>
    simp only [SCT013.call, Option.some.injEq, Prod.mk.injEq] at h
    rw [← h.1]; rfl
  | setCalibration tr br =>
    simp only [SCT013.call, Option.some.injEq, Prod.mk.injEq] at h
    rw [← h.1]; rfl
  | setFrequency hz =>
    simp only [SCT013.call, Option.some.injEq, Prod.mk.injEq] at h
    rw [← h.1]; rfl
  | setCalibrationFactor f =>
    simp only [SCT013.call, Option.some.injEq, Prod.mk.injEq] at h
    rw [← h.1]; rfl
  | tareNoDelay =>
    simp only [SCT013.call, Option.some.injEq, Prod.mk.injEq] at h
    rw [← h.1]; rfl
  | readAmps clock adc fuel =>
    simp only [SCT013.call] at h
    cases hr : SCT013.readAmps sqrt s clock adc fuel with
    | none => simp [hr] at h
    | some r =>
      obtain ⟨s1, v⟩ := r
      simp only [hr, Option.some.injEq, Prod.mk.injEq] at h
      rw [← h.1, SCT013.readAmps_frame hr]
  | readAmpsSamples adc n =>
    simp only [SCT013.call] at h
    cases hr : SCT013.readAmpsSamples sqrt s adc n with
    | none => simp [hr] at h
    | some r =>
      obtain ⟨s1, v⟩ := r
      simp only [hr, Option.some.injEq, Prod.mk.injEq] at h
      rw [← h.1, SCT013.readAmpsSamples_frame hr]
  | update t0 x t1 =>
    simp only [SCT013.call] at h
    obtain ⟨-, -, -, -, -, -, d, -, hb | hb⟩ := SCT013.update_eq_some h
    · simp at hb
    · exact hb.2.2.2.2

theorem SCT013.calls_lastAmps (sqrt : ℚ → ℚ) (cs : List Call) :
    ∀ (s s' : SCT013), SCT013.calls sqrt s cs = some (s', false) →
      s'._lastAmps = s._lastAmps := by
  induction cs with
  | nil =>
    intro s s' h
    simp only [SCT013.calls, Option.some.injEq, Prod.mk.injEq] at h
    rw [← h.1]
  | cons c cs ih =>
    intro s s' h
    simp only [SCT013.calls] at h
    cases hc : SCT013.call sqrt s c with
    | none => simp [hc] at h
    | some r =>
      obtain ⟨s1, b⟩ := r
      simp only [hc] at h
      cases hr : SCT013.calls sqrt s1 cs with
      | none => simp [hr] at h
      | some r2 =>
        obtain ⟨s2, b2⟩ := r2
        simp only [hr, Option.some.injEq, Prod.mk.injEq, Bool.or_eq_false_iff] at h
        obtain ⟨rfl, rfl, rfl⟩ := h
        rw [ih s1 s2 hr, SCT013.call_lastAmps hc]

theorem demoCalls_run :
    SCT013.calls floorSqrt demoFresh demoCalls = some (demoAfterCalls, false) := by
  have h1 : windowDuration 60 = some 160 := by decide
  have h2 : usub 100 0 = 100 := by decide
  simp [SCT013.calls, SCT013.call, SCT013.update, SCT013.setFrequency, SCT013.tareNoDelay,
    demoFresh, demoCalls, demoAfterCalls, INT_MAX, h1, h2]

end Current

/-- C12: `_lastAmps` changes only when a window finalizes.  An `update()` that returns
false, both blocking reads, `tareNoDelay()`, `setFrequency()`, `setCalibration()`,
`setCalibrationFactor()` and `begin()` leave `getLastAmps()` unchanged; hence after any
sequence of such calls on a meter built by either constructor, as long as no
`update()` has returned true, `getLastAmps()` is 0. -/
theorem C12_lastAmps_changes_only_on_finalize (sqrt : ℚ → ℚ) :
    (∀ (s s' : Current.SCT013) (c : Current.Call),
        Current.SCT013.call sqrt s c = some (s', false) →
        Current.SCT013.getLastAmps s' = Current.SCT013.getLastAmps s)
      ∧ (∀ (s s' : Current.SCT013) (t0 : Nat) (x : Int) (t1 : Nat),
          Current.SCT013.update sqrt s t0 x t1 = some (s', false) →
          Current.SCT013.getLastAmps s' = Current.SCT013.getLastAmps s)
      ∧ (∀ (s s' : Current.SCT013) (clock : Nat → Nat) (adc : Nat → Int) (fuel : Nat)
          (v : Dbl), Current.SCT013.readAmps sqrt s clock adc fuel = some (s', v) →
          Current.SCT013.getLastAmps s' = Current.SCT013.getLastAmps s)
      ∧ (∀ (s s' : Current.SCT013) (adc : Nat → Int) (samples : Int) (v : Dbl),
          Current.SCT013.readAmpsSamples sqrt s adc samples = some (s', v) →
          Current.SCT013.getLastAmps s' = Current.SCT013.getLastAmps s)
      ∧ (∀ (s : Current.SCT013) (hz : Int) (a b : ℚ),
          Current.SCT013.getLastAmps s.tareNoDelay = Current.SCT013.getLastAmps s
          ∧ Current.SCT013.getLastAmps (s.setFrequency hz) = Current.SCT013.getLastAmps s
          ∧ Current.SCT013.getLastAmps (s.setCalibration a b) = Current.SCT013.getLastAmps s
          ∧ Current.SCT013.getLastAmps (s.setCalibrationFactor a)
            = Current.SCT013.getLastAmps s
          ∧ Current.SCT013.getLastAmps (s.begin a b) = Current.SCT013.getLastAmps s)
      ∧ (∀ (pin : Int) (v : ℚ) (r f0 : Int) (fi0 : ℚ) (s0 s' : Current.SCT013)
          (cs : List Current.Call),
          (Current.SCT013.construct pin v r f0 fi0 = some s0 ∨
            ∃ esp32, Current.SCT013.constructAuto esp32 pin fi0 = some s0) →
          Current.SCT013.calls sqrt s0 cs = some (s', false) →
          Current.SCT013.getLastAmps s' = some 0) := by
  refine ⟨?_, ?_, ?_, ?_, ?_, ?_⟩
  · intro s s' c h
    exact Current.SCT013.call_lastAmps h
  · intro s s' t0 x t1 h
    obtain ⟨-, -, -, -, -, -, d, -, hb | hb⟩ := Current.SCT013.update_eq_some h
    · simp at hb
    · exact hb.2.2.2.2
  · intro s s' clock adc fuel v h
    unfold Current.SCT013.getLastAmps
    rw [Current.SCT013.readAmps_frame h]
  · intro s s' adc samples v h
    unfold Current.SCT013.getLastAmps
    rw [Current.SCT013.readAmpsSamples_frame h]
  · intro s hz a b
    exact ⟨rfl, rfl, rfl, rfl, rfl⟩
  · intro pin v r f0 fi0 s0 s' cs hc h
    unfold Current.SCT013.getLastAmps
    rw [Current.SCT013.calls_lastAmps sqrt cs s0 s' h]
    rcases hc with hc | ⟨esp32, hc⟩
    · obtain ⟨m, -, rfl⟩ := Current.SCT013.construct_eq_some hc
      rfl
    · rw [Current.SCT013.constructAuto_eq_some hc]

/-- Instance on the meter of the auto-configuring constructor and the session
`Current.demoCalls`, in which the only `update()` returns false. -/
theorem C12_lastAmps_changes_only_on_finalize_witness :
    Current.SCT013.constructAuto false 0 0 = some Current.demoFresh
      ∧ Current.SCT013.calls floorSqrt Current.demoFresh Current.demoCalls
        = some (Current.demoAfterCalls, false)
      ∧ Current.SCT013.getLastAmps Current.demoAfterCalls = some 0 :=
  ⟨Current.demoFresh_construct, Current.demoCalls_run,
    (C12_lastAmps_changes_only_on_finalize floorSqrt).2.2.2.2.2 0 0 0 0 0 Current.demoFresh
      Current.demoAfterCalls Current.demoCalls
      (Or.inr ⟨false, Current.demoFresh_construct⟩) Current.demoCalls_run⟩


/-- C17: for a non-zero burden resistance, `setCalibration(turnsRatio, burdenResistor)`
called twice leaves the same state as called once; the calibration factor is then
`turnsRatio / burdenResistor`, which `getCalibrationFactor()` returns, and no other
member changes.  `setCalibrationFactor(f)` likewise only sets the factor read back by
`getCalibrationFactor()`. -/
theorem C17_setCalibration_idempotent (s : Current.SCT013) (turnsRatio burdenResistor : ℚ)
    (hb : burdenResistor ≠ 0) :
    (s.setCalibration turnsRatio burdenResistor).setCalibration turnsRatio burdenResistor
        = s.setCalibration turnsRatio burdenResistor
      ∧ (s.setCalibration turnsRatio burdenResistor).getCalibrationFactor
        = some (turnsRatio / burdenResistor)
      ∧ s.setCalibration turnsRatio burdenResistor
        = { s with _calibration := some (turnsRatio / burdenResistor) }
      ∧ (∀ f : ℚ, (s.setCalibrationFactor f).getCalibrationFactor = some f
          ∧ s.setCalibrationFactor f = { s with _calibration := some f }) := by
  have h : s.setCalibration turnsRatio burdenResistor
      = { s with _calibration := some (turnsRatio / burdenResistor) } := by
    simp [Current.SCT013.setCalibration, Dbl.div, hb]
  refine ⟨rfl, ?_, h, fun f => ⟨rfl, rfl⟩⟩
  rw [h]
  rfl

/-- Instance on `Current.demo` with the default 2000 turns and 18 ohm burden. -/
theorem C17_setCalibration_idempotent_witness :
    (18 : ℚ) ≠ 0
      ∧ ((Current.demo.setCalibration 2000 18).setCalibration 2000 18
          = Current.demo.setCalibration 2000 18)
      ∧ (Current.demo.setCalibration 2000 18).getCalibrationFactor = some (2000 / 18) :=
  ⟨by norm_num,
    (C17_setCalibration_idempotent Current.demo 2000 18 (by norm_num)).1,
    (C17_setCalibration_idempotent Current.demo 2000 18 (by norm_num)).2.1⟩


namespace Current

end Current


namespace Current

end Current

theorem bias_step_between (b x K : ℚ) (hK : 1 ≤ K) :
    min b x ≤ b + (x - b) / K ∧ b + (x - b) / K ≤ max b x := by
  have hK0 : 0 < K := lt_of_lt_of_le one_pos hK
  rcases le_total b x with h | h
  · have h1 : 0 ≤ (x - b) / K := div_nonneg (sub_nonneg.mpr h) (le_of_lt hK0)
    have h2 : (x - b) / K ≤ x - b := div_le_self (sub_nonneg.mpr h) hK
    rw [min_eq_left h, max_eq_right h]
    constructor <;> linarith
  · have h1 : (x - b) / K ≤ 0 := div_nonpos_of_nonpos_of_nonneg (sub_nonpos.mpr h) (le_of_lt hK0)
    have h2 : -((x - b) / K) ≤ -(x - b) := by
      rw [← neg_div]
      exact div_le_self (by linarith) hK
    rw [min_eq_right h, max_eq_left h]
    constructor <;> linarith

theorem bias_step_range (b x K lo hi : ℚ) (hK : 1 ≤ K) (hb : lo ≤ b ∧ b ≤ hi)
    (hx : lo ≤ x ∧ x ≤ hi) : lo ≤ b + (x - b) / K ∧ b + (x - b) / K ≤ hi := by
  obtain ⟨h1, h2⟩ := bias_step_between b x K hK
  exact ⟨le_trans (le_min hb.1 hx.1) h1, le_trans h2 (max_le hb.2 hx.2)⟩

namespace Current

theorem SCT013.update_bias_between {sqrt : ℚ → ℚ} {s s' : SCT013} {t0 t1 : Nat} {x : Int}
    {b : Bool} (h : SCT013.update sqrt s t0 x t1 = some (s', b)) :
    min s._offsetI (x : ℚ) ≤ s'._offsetI ∧ s'._offsetI ≤ max s._offsetI (x : ℚ) := by
  obtain ⟨-, ho, -⟩ := SCT013.update_eq_some h
  rw [ho]
  apply bias_step_between
  split_ifs <;> norm_num

theorem SCT013.updates_bias_range (sqrt : ℚ → ℚ) (lo hi : ℚ) (ticks : List Tick) :
    ∀ (s s' : SCT013) (flags : List Bool), lo ≤ s._offsetI ∧ s._offsetI ≤ hi →
      (∀ t ∈ ticks, lo ≤ (t.sampleI : ℚ) ∧ (t.sampleI : ℚ) ≤ hi) →
      SCT013.updates sqrt s ticks = some (s', flags) →
      lo ≤ s'._offsetI ∧ s'._offsetI ≤ hi := by
  induction ticks with
  | nil =>
    intro s s' flags hb _ h
    simp only [SCT013.updates, Option.some.injEq, Prod.mk.injEq] at h
    obtain ⟨rfl, -⟩ := h
    exact hb
  | cons x xs ih =>
    intro s s' flags hb hx h
    simp only [SCT013.updates] at h
    cases hu : SCT013.update sqrt s x.t0 x.sampleI x.t1 with
    | none => simp [hu] at h
    | some r =>
      obtain ⟨s1, b⟩ := r
      simp only [hu] at h
      cases hr : SCT013.updates sqrt s1 xs with
      | none => simp [hr] at h
      | some r2 =>
        obtain ⟨s2, bs⟩ := r2
        simp only [hr, Option.some.injEq, Prod.mk.injEq] at h
        obtain ⟨rfl, -⟩ := h
        obtain ⟨h1, h2⟩ := SCT013.update_bias_between hu
        have hx0 := hx x (List.mem_cons_self _ _)
        exact ih s1 s2 bs ⟨le_trans (le_min hb.1 hx0.1) h1, le_trans h2 (max_le hb.2 hx0.2)⟩
          (fun t ht => hx t (List.mem_cons_of_mem _ ht)) hr

theorem SCT013.sampleLoop_bias_range (adc : Nat → Int) (lo hi : ℚ)
    (hadc : ∀ i, lo ≤ (adc i : ℚ) ∧ (adc i : ℚ) ≤ hi) (k : Nat) :
    ∀ (s : SCT013) (sumI : ℚ) (i : Nat), lo ≤ s._offsetI ∧ s._offsetI ≤ hi →
      lo ≤ (SCT013.sampleLoop adc s sumI i k).1._offsetI
        ∧ (SCT013.sampleLoop adc s sumI i k).1._offsetI ≤ hi := by
  induction k with
  | zero => intro s sumI i hb; exact hb
  | succ k ih =>
    intro s sumI i hb
    simp only [SCT013.sampleLoop]
    exact ih _ _ _ (bias_step_range _ _ 1024 lo hi (by norm_num) hb (hadc i))

theorem SCT013.timedLoop_bias_range (clock : Nat → Nat) (adc : Nat → Int) (lo hi : ℚ)
    (hadc : ∀ i, lo ≤ (adc i : ℚ) ∧ (adc i : ℚ) ≤ hi) (start duration : Nat) (fuel : Nat) :
    ∀ (s : SCT013) (sumI : ℚ) (count : Int) (i : Nat) (r : SCT013 × ℚ × Int),
      lo ≤ s._offsetI ∧ s._offsetI ≤ hi →
      SCT013.timedLoop clock adc start duration s sumI count i fuel = some r →
      lo ≤ r.1._offsetI ∧ r.1._offsetI ≤ hi := by
  induction fuel with
  | zero => intro s sumI count i r _ h; simp [SCT013.timedLoop] at h
  | succ fuel ih =>
    intro s sumI count i r hb h
    simp only [SCT013.timedLoop] at h
    by_cases hc : usub (clock (i + 1)) start < duration
    · by_cases hmax : INT_MAX ≤ count
      · simp [hc, hmax] at h
      · simp only [hc, hmax, if_true, if_false] at h
        exact ih _ _ _ _ r (bias_step_range _ _ 1024 lo hi (by norm_num) hb (hadc i)) h
    · simp only [hc, if_false, Option.some.injEq] at h
      subst h
      exact hb

theorem SCT013.readAmpsSamples_bias_range {sqrt : ℚ → ℚ} {s s' : SCT013} {adc : Nat → Int}
    {samples : Int} {v : Dbl} (lo hi : ℚ)
    (hadc : ∀ i, lo ≤ (adc i : ℚ) ∧ (adc i : ℚ) ≤ hi)
    (hb : lo ≤ s._offsetI ∧ s._offsetI ≤ hi)
    (h : SCT013.readAmpsSamples sqrt s adc samples = some (s', v)) :
    lo ≤ s'._offsetI ∧ s'._offsetI ≤ hi := by
  unfold SCT013.readAmpsSamples at h
  simp only at h
  split at h
  · simp at h
  · simp only [Option.some.injEq, Prod.mk.injEq] at h
    obtain ⟨rfl, -⟩ := h
    exact SCT013.sampleLoop_bias_range adc lo hi hadc _ s 0 0 hb

theorem SCT013.readAmps_bias_range {sqrt : ℚ → ℚ} {s s' : SCT013} {clock : Nat → Nat}
    {adc : Nat → Int} {fuel : Nat} {v : Dbl} (lo hi : ℚ)
    (hadc : ∀ i, lo ≤ (adc i : ℚ) ∧ (adc i : ℚ) ≤ hi)
    (hb : lo ≤ s._offsetI ∧ s._offsetI ≤ hi)
    (h : SCT013.readAmps sqrt s clock adc fuel = some (s', v)) :
    lo ≤ s'._offsetI ∧ s'._offsetI ≤ hi := by
  unfold SCT013.readAmps at h
  cases hd : windowDuration s._frequency with
  | none => simp [hd] at h
  | some d =>
    simp only [hd] at h
    cases hl : SCT013.timedLoop clock adc (clock 0 % ULONG_MOD) d s 0 0 0 fuel with
    | none => simp [hl] at h
    | some r =>
      obtain ⟨s1, sumI, count⟩ := r
      have hr := SCT013.timedLoop_bias_range clock adc lo hi hadc _ d fuel s 0 0 0 _ hb hl
      simp only [hl] at h
      have hs : s' = s1 := by
        by_cases hc : count = 0
        · simp only [hc, if_true, Option.some.injEq, Prod.mk.injEq] at h
          exact h.1.symm
        · simp only [hc, if_false] at h
          cases hr : rmsAmps sqrt sumI count s1._adcResolution s1._voltageReference
              s1._calibration with
          | none => simp [hr] at h
          | some amps =>
            simp only [hr, Option.some.injEq, Prod.mk.injEq] at h
            exact h.1.symm
      subst hs
      exact hr

end Current

theorem shl1_of_range {r : Int} (h0 : 0 ≤ r) (h1 : r < 31) : shl1 r = some (2 ^ r.toNat) := by
  unfold shl1
  rw [if_pos ⟨h0, h1⟩]

theorem half_pow_two {r : Int} (h1 : 1 ≤ r) :
    (((2 : Int) ^ r.toNat / 2 : Int) : ℚ) = (2 : ℚ) ^ (r - 1).toNat := by
  obtain ⟨n, hn⟩ := Int.eq_ofNat_of_zero_le (by omega : 0 ≤ r - 1)
  have h2 : (r - 1).toNat = n := by omega
  have h3 : r.toNat = n + 1 := by omega
  rw [h2, h3, pow_succ, Int.mul_ediv_cancel _ (by norm_num : (2 : Int) ≠ 0)]
  push_cast
  rfl


/-- C18: the bias estimate stays inside the ADC range.  For `1 ≤ r ≤ 24` the manual
constructor sets the bias to `2^(r-1)`, which lies in `[0, 2^r - 1]`, and the
auto-configuring constructor sets it to `2^(bits-1)` for its own resolution.  One
`update()` (normal or tare mode) or one iteration of a blocking read leaves the bias
between the smaller and the larger of the old bias and the sample; hence, for every
`r`, a bias in `[0, 2^r - 1]` stays in `[0, 2^r - 1]` through any run of `update()`
calls and through both blocking reads when every sample lies in `[0, 2^r - 1]`. -/
theorem C18_bias_stays_in_adc_range (sqrt : ℚ → ℚ) :
    (∀ (pin : Int) (v : ℚ) (r f0 : Int) (fi0 : ℚ), 1 ≤ r → r ≤ 24 →
        ∃ s, Current.SCT013.construct pin v r f0 fi0 = some s
          ∧ s._offsetI = (2 : ℚ) ^ (r - 1).toNat
          ∧ 0 ≤ s._offsetI ∧ s._offsetI ≤ (2 : ℚ) ^ r.toNat - 1)
      ∧ (∀ (esp32 : Bool) (pin : Int) (fi0 : ℚ),
          ∃ s, Current.SCT013.constructAuto esp32 pin fi0 = some s
            ∧ s._offsetI = (2 : ℚ) ^ (s._adcResolution - 1).toNat
            ∧ 0 ≤ s._offsetI ∧ s._offsetI ≤ (2 : ℚ) ^ s._adcResolution.toNat - 1)
      ∧ (∀ (s s' : Current.SCT013) (t0 : Nat) (x : Int) (t1 : Nat) (b : Bool),
          Current.SCT013.update sqrt s t0 x t1 = some (s', b) →
          min s._offsetI (x : ℚ) ≤ s'._offsetI ∧ s'._offsetI ≤ max s._offsetI (x : ℚ))
      ∧ (∀ (s : Current.SCT013) (adc : Nat → Int) (sumI : ℚ) (i : Nat),
          min s._offsetI (adc i : ℚ) ≤ (Current.SCT013.sampleLoop adc s sumI i 1).1._offsetI
          ∧ (Current.SCT013.sampleLoop adc s sumI i 1).1._offsetI
            ≤ max s._offsetI (adc i : ℚ))
      ∧ (∀ (r : Nat) (s s' : Current.SCT013) (ticks : List Current.Tick) (flags : List Bool),
          0 ≤ s._offsetI → s._offsetI ≤ (2 : ℚ) ^ r - 1 →
          (∀ t ∈ ticks, 0 ≤ t.sampleI ∧ t.sampleI ≤ 2 ^ r - 1) →
          Current.SCT013.updates sqrt s ticks = some (s', flags) →
          0 ≤ s'._offsetI ∧ s'._offsetI ≤ (2 : ℚ) ^ r - 1)
      ∧ (∀ (r : Nat) (s s' : Current.SCT013) (adc : Nat → Int) (samples : Int) (v : Dbl),
          0 ≤ s._offsetI → s._offsetI ≤ (2 : ℚ) ^ r - 1 →
          (∀ i, 0 ≤ adc i ∧ adc i ≤ 2 ^ r - 1) →
          Current.SCT013.readAmpsSamples sqrt s adc samples = some (s', v) →
          0 ≤ s'._offsetI ∧ s'._offsetI ≤ (2 : ℚ) ^ r - 1)
      ∧ (∀ (r : Nat) (s s' : Current.SCT013) (clock : Nat → Nat) (adc : Nat → Int)
          (fuel : Nat) (v : Dbl),
          0 ≤ s._offsetI → s._offsetI ≤ (2 : ℚ) ^ r - 1 →
          (∀ i, 0 ≤ adc i ∧ adc i ≤ 2 ^ r - 1) →
          Current.SCT013.readAmps sqrt s clock adc fuel = some (s', v) →
          0 ≤ s'._offsetI ∧ s'._offsetI ≤ (2 : ℚ) ^ r - 1) := by
  have hcast : ∀ (r : Nat) (x : Int), 0 ≤ x ∧ x ≤ 2 ^ r - 1 →
      (0 : ℚ) ≤ (x : ℚ) ∧ (x : ℚ) ≤ (2 : ℚ) ^ r - 1 := by
    intro r x hx
    constructor
    · exact_mod_cast hx.1
    · have : ((x : Int) : ℚ) ≤ (((2 : Int) ^ r - 1 : Int) : ℚ) := by exact_mod_cast hx.2
      simpa using this
  refine ⟨?_, ?_, ?_, ?_, ?_, ?_, ?_⟩
  · intro pin v r f0 fi0 h1 h24
    have hm := shl1_of_range (by omega : 0 ≤ r) (by omega : r < 31)
    have hc : Current.SCT013.construct pin v r f0 fi0
        = some { _pin := pin, _voltageReference := v, _adcResolution := r,
                 _calibration := some 1, _frequency := f0,
                 _offsetI := (2 : ℚ) ^ (r - 1).toNat, _filteredI := fi0, _sumI := 0,
                 _sampleCount := 0, _startTime := 0, _lastAmps := some 0, _tareCount := 0 } := by
      simp only [Current.SCT013.construct, hm, half_pow_two h1]
    refine ⟨_, hc, rfl, by positivity, ?_⟩
    simp only
    have h3 : r.toNat = (r - 1).toNat + 1 := by omega
    rw [h3, pow_succ]
    have : (1 : ℚ) ≤ 2 ^ (r - 1).toNat := one_le_pow₀ (by norm_num)
    linarith
  · intro esp32 pin fi0
    cases esp32 with
    | false =>
      have h3 : shl1 10 = some 1024 := by decide
      have hc : Current.SCT013.constructAuto false pin fi0
          = some { _pin := pin, _voltageReference := 5, _adcResolution := 10,
                   _calibration := some 1, _frequency := 50, _offsetI := 512,
                   _filteredI := fi0, _sumI := 0, _sampleCount := 0, _startTime := 0,
                   _lastAmps := some 0, _tareCount := 0 } := by
        simp only [Current.SCT013.constructAuto, Bool.false_eq_true, if_false, h3]
        norm_num
      refine ⟨_, hc, ?_⟩
      have e9 : Int.toNat 9 = 9 := rfl
      have e10 : Int.toNat 10 = 10 := rfl
      have e11 : Int.toNat 11 = 11 := rfl
      have e12 : Int.toNat 12 = 12 := rfl
      norm_num [e9, e10, e11, e12]
    | true =>
      have h3 : shl1 12 = some 4096 := by decide
      have hc : Current.SCT013.constructAuto true pin fi0
          = some { _pin := pin, _voltageReference := 33 / 10, _adcResolution := 12,
                   _calibration := some 1, _frequency := 50, _offsetI := 2048,
                   _filteredI := fi0, _sumI := 0, _sampleCount := 0, _startTime := 0,
                   _lastAmps := some 0, _tareCount := 0 } := by
        simp only [Current.SCT013.constructAuto, if_true, h3]
        norm_num
      refine ⟨_, hc, ?_⟩
      have e9 : Int.toNat 9 = 9 := rfl
      have e10 : Int.toNat 10 = 10 := rfl
      have e11 : Int.toNat 11 = 11 := rfl
      have e12 : Int.toNat 12 = 12 := rfl
      norm_num [e9, e10, e11, e12]
  · intro s s' t0 x t1 b h
    exact Current.SCT013.update_bias_between h
  · intro s adc sumI i
    simp only [Current.SCT013.sampleLoop]
    exact bias_step_between _ _ 1024 (by norm_num)
  · intro r s s' ticks flags h0 h1 hx h
    exact Current.SCT013.updates_bias_range sqrt 0 ((2 : ℚ) ^ r - 1) ticks s s' flags ⟨h0, h1⟩
      (fun t ht => hcast r t.sampleI (hx t ht)) h
  · intro r s s' adc samples v h0 h1 hx h
    exact Current.SCT013.readAmpsSamples_bias_range 0 ((2 : ℚ) ^ r - 1)
      (fun i => hcast r (adc i) (hx i)) ⟨h0, h1⟩ h
  · intro r s s' clock adc fuel v h0 h1 hx h
    exact Current.SCT013.readAmps_bias_range 0 ((2 : ℚ) ^ r - 1)
      (fun i => hcast r (adc i) (hx i)) ⟨h0, h1⟩ h

/-- Instances for a 10-bit ADC: the manual constructor sets the bias to 512, and the
bias of `Current.demo` after `tareNoDelay()` and an `update()` reading 516 is still in
`[0, 1023]`. -/
theorem C18_bias_stays_in_adc_range_witness :
    ((1 : Int) ≤ 10 ∧ (10 : Int) ≤ 24
        ∧ ∃ s, Current.SCT013.construct 0 5 10 0 0 = some s
          ∧ s._offsetI = (2 : ℚ) ^ ((10 : Int) - 1).toNat)
      ∧ (0 ≤ Current.demo.tareNoDelay._offsetI
          ∧ Current.demo.tareNoDelay._offsetI ≤ (2 : ℚ) ^ 10 - 1
          ∧ (∀ t ∈ [Current.demoTick], 0 ≤ t.sampleI ∧ t.sampleI ≤ 2 ^ 10 - 1)
          ∧ Current.SCT013.updates floorSqrt Current.demo.tareNoDelay [Current.demoTick]
            = some (Current.demoTared, [false])
          ∧ 0 ≤ Current.demoTared._offsetI
          ∧ Current.demoTared._offsetI ≤ (2 : ℚ) ^ 10 - 1) := by
  have h0 : 0 ≤ Current.demo.tareNoDelay._offsetI := by
    simp [Current.demo, Current.SCT013.tareNoDelay]
  have h1 : Current.demo.tareNoDelay._offsetI ≤ (2 : ℚ) ^ 10 - 1 := by
    simp [Current.demo, Current.SCT013.tareNoDelay]
    norm_num
  have hx : ∀ t ∈ [Current.demoTick], 0 ≤ t.sampleI ∧ t.sampleI ≤ 2 ^ 10 - 1 := by
    intro t ht
    rw [List.mem_singleton.mp ht]
    decide
  have key := C18_bias_stays_in_adc_range floorSqrt
  obtain ⟨s, hs, ho, -⟩ := key.1 0 5 10 0 0 (by decide) (by decide)
  have hr := key.2.2.2.2.1 10 Current.demo.tareNoDelay Current.demoTared [Current.demoTick]
    [false] h0 h1 hx Current.demo_tared_updates
  exact ⟨⟨by decide, by decide, s, hs, ho⟩, h0, h1, hx, Current.demo_tared_updates, hr.1,
    hr.2⟩


theorem Dbl.div_finite (a : ℚ) {n : Int} (hn : 1 ≤ n) :
    Dbl.div (some a) (some (n : ℚ)) = some (a / (n : ℚ)) := by
  have hn' : (n : ℚ) ≠ 0 := by
    have : n ≠ 0 := by omega
    exact_mod_cast this
  simp [Dbl.div, hn']

/-- C20: `update()` never divides by a zero sample count.  In a state with
`_sampleCount ≥ 0`, whenever `update()` returns true (current or legacy variant) the
divisor of `_sumI / _sampleCount` is the incremented count, at least 1, so the quotient
is a finite number and the result is the finalization formula at that count.  In the
current variant this holds even when the window lasts 0 ms and closes on its first
sample (divisor 1); in the legacy variant with target 1000 the divisor is at least
1000. -/
theorem C20_update_divisor_at_least_one (sqrt : ℚ → ℚ) :
    (∀ (s s' : Current.SCT013) (t0 : Nat) (x : Int) (t1 : Nat), 0 ≤ s._sampleCount →
        Current.SCT013.update sqrt s t0 x t1 = some (s', true) →
        1 ≤ s._sampleCount + 1
        ∧ Dbl.div (some (s._sumI + s'._filteredI * s'._filteredI))
            (some ((s._sampleCount + 1 : Int) : ℚ))
          = some ((s._sumI + s'._filteredI * s'._filteredI) / ((s._sampleCount + 1 : Int) : ℚ))
        ∧ s'._lastAmps = specResultAmps sqrt (s._sumI + s'._filteredI * s'._filteredI)
            (s._sampleCount + 1) s._adcResolution s._voltageReference s._calibration)
      ∧ (∀ (s : Current.SCT013) (t0 : Nat) (x : Int) (t1 : Nat) (m : Int),
          s._sampleCount = 0 → 1000 < s._frequency → shl1 s._adcResolution = some m →
          ∃ s', Current.SCT013.update sqrt s t0 x t1 = some (s', true)
            ∧ s'._lastAmps = specResultAmps sqrt (s._sumI + s'._filteredI * s'._filteredI) 1
                s._adcResolution s._voltageReference s._calibration)
      ∧ (∀ (s s' : Legacy.SCT013) (x : Int), 0 ≤ s._sampleCount →
          Legacy.SCT013.update sqrt s x = some (s', true) →
          1 ≤ s._sampleCount + 1
          ∧ Dbl.div (some (s._sumI + s'._filteredI * s'._filteredI))
              (some ((s._sampleCount + 1 : Int) : ℚ))
            = some ((s._sumI + s'._filteredI * s'._filteredI)
                / ((s._sampleCount + 1 : Int) : ℚ))
          ∧ s'._lastAmps = specResultAmps sqrt (s._sumI + s'._filteredI * s'._filteredI)
              (s._sampleCount + 1) s._adcResolution s._voltageReference s._calibration
          ∧ (s._samplesToAverage = 1000 → 1000 ≤ s._sampleCount + 1)) := by
  refine ⟨?_, ?_, ?_⟩
  · intro s s' t0 x t1 h0 h
    obtain ⟨-, -, -, -, -, -, d, -, hb | hb⟩ := Current.SCT013.update_eq_some h
    · obtain ⟨-, -, -, -, hamps⟩ := hb
      exact ⟨by omega, Dbl.div_finite _ (by omega), rmsAmps_eq_some hamps⟩
    · simp at hb
  · intro s t0 x t1 m hc hf hm
    have hmax : s._sampleCount < INT_MAX := by rw [hc]; decide
    obtain ⟨s', h⟩ := Current.SCT013.update_isSome sqrt s x t0 t1 hmax
      (windowDuration_of_gt hf) hm
    simp only [Nat.zero_le, decide_True] at h
    refine ⟨s', h, ?_⟩
    obtain ⟨-, -, -, -, -, -, d, -, hb | hb⟩ := Current.SCT013.update_eq_some h
    · obtain ⟨-, -, -, -, hamps⟩ := hb
      have := rmsAmps_eq_some hamps
      rw [hc] at this
      simpa using this
    · simp at hb
  · intro s s' x h0 h
    obtain ⟨-, hb | hb⟩ := Legacy.SCT013.legacyUpdate_eq_some h
    · obtain ⟨-, hT, amps, hamps, rfl⟩ := hb
      refine ⟨by omega, Dbl.div_finite _ (by omega), rmsAmps_eq_some hamps, ?_⟩
      intro h1000
      rw [h1000] at hT
      exact hT
    · simp at hb

/-- Instances: `Current.demo` closing its window with divisor 8, and the meter of the
auto-configuring constructor set to 2000 Hz, whose window closes on the first sample
with divisor 1. -/
theorem C20_update_divisor_at_least_one_witness :
    (0 ≤ Current.demo._sampleCount
        ∧ Current.SCT013.update floorSqrt Current.demo 0 516 1200
          = some (Current.demoClosed, true)
        ∧ 1 ≤ Current.demo._sampleCount + 1)
      ∧ ((Current.demoFresh.setFrequency 2000)._sampleCount = 0
          ∧ 1000 < (Current.demoFresh.setFrequency 2000)._frequency
          ∧ shl1 (Current.demoFresh.setFrequency 2000)._adcResolution = some 1024
          ∧ ∃ s', Current.SCT013.update floorSqrt (Current.demoFresh.setFrequency 2000) 0 516 0
              = some (s', true)
            ∧ s'._lastAmps
              = specResultAmps floorSqrt
                  ((Current.demoFresh.setFrequency 2000)._sumI + s'._filteredI * s'._filteredI)
                  1 (Current.demoFresh.setFrequency 2000)._adcResolution
                  (Current.demoFresh.setFrequency 2000)._voltageReference
                  (Current.demoFresh.setFrequency 2000)._calibration) :=
  ⟨⟨by decide, Current.demo_update_closed,
      ((C20_update_divisor_at_least_one floorSqrt).1 Current.demo Current.demoClosed 0 516
        1200 (by decide) Current.demo_update_closed).1⟩,
    ⟨rfl, by decide, by decide,
      (C20_update_divisor_at_least_one floorSqrt).2.1 (Current.demoFresh.setFrequency 2000)
        0 516 0 1024 rfl (by decide) (by decide)⟩⟩


namespace Legacy

theorem SCT013.legacySampleLoop_congr (adc : Nat → Int) (k : Nat) :
    ∀ (s t : SCT013) (a : ℚ) (i : Nat), s._offsetI = t._offsetI →
      (SCT013.sampleLoop adc s a i k).2 = (SCT013.sampleLoop adc t a i k).2
        ∧ (SCT013.sampleLoop adc s a i k).1._offsetI
          = (SCT013.sampleLoop adc t a i k).1._offsetI := by
  induction k with
  | zero => intro s t a i h; exact ⟨rfl, h⟩
  | succ k ih =>
    intro s t a i h
    simp only [SCT013.sampleLoop, h]
    exact ih _ _ _ _ rfl

theorem SCT013.legacyUpdates_refine (sqrt : ℚ → ℚ) (adc : Nat → Int) (xs : List Int) :
    ∀ (s : SCT013) (i c : Nat) (m : Int), (∀ j, j < xs.length → adc (i + j) = xs.getD j 0) →
      s._samplesToAverage = 1000 → s._sampleCount = (c : Int) → c + xs.length = 1000 →
      xs ≠ [] → shl1 s._adcResolution = some m →
      ∃ sU flags, SCT013.updates sqrt s xs = some (sU, flags)
        ∧ sU._lastAmps = specResultAmps sqrt (SCT013.sampleLoop adc s s._sumI i xs.length).2
            1000 s._adcResolution s._voltageReference s._calibration
        ∧ sU._offsetI = (SCT013.sampleLoop adc s s._sumI i xs.length).1._offsetI := by
  induction xs with
  | nil => intro s i c m _ _ _ _ hne; exact absurd rfl hne
  | cons x xs ih =>
    intro s i c m hadc hT hc hlen _ hm
    simp only [List.length_cons] at hlen
    have hmax : s._sampleCount < INT_MAX := by rw [hc]; unfold INT_MAX; omega
    have hx : adc i = x := by
      have := hadc 0 (by simp)
      simpa using this
    by_cases hnil : xs = []
    · subst hnil
      simp only [List.length_nil] at hlen
      obtain ⟨s1, hu, -⟩ := SCT013.legacyUpdate_close sqrt s x hmax
        (by rw [hT, hc]; omega) hm
      obtain ⟨-, hb | hb⟩ := SCT013.legacyUpdate_eq_some hu
      · obtain ⟨-, -, amps, hamps, hs1⟩ := hb
        have hl := rmsAmps_eq_some hamps
        have hcnt : s._sampleCount + 1 = 1000 := by rw [hc]; omega
        rw [hcnt] at hl
        refine ⟨s1, [true], by simp only [SCT013.updates, hu], ?_, ?_⟩
        · rw [hs1]
          simp only [List.length_cons, List.length_nil, SCT013.sampleLoop, hx]
          exact hl
        · rw [hs1]
          simp only [List.length_cons, List.length_nil, SCT013.sampleLoop, hx]
      · simp at hb
    · obtain ⟨s1, hu, -⟩ := SCT013.legacyUpdate_open sqrt s x hmax (by
        rw [hT, hc]
        have : 0 < xs.length := List.length_pos.mpr hnil
        omega)
      obtain ⟨-, hb | hb⟩ := SCT013.legacyUpdate_eq_some hu
      · simp at hb
      · obtain ⟨-, -, hs1⟩ := hb
        have hT1 : s1._samplesToAverage = 1000 := by rw [hs1]; exact hT
        have hc1 : s1._sampleCount = ((c + 1 : Nat) : Int) := by
          rw [hs1]; simp only; rw [hc]; push_cast; ring
        have hm1 : shl1 s1._adcResolution = some m := by rw [hs1]; exact hm
        obtain ⟨sU, flags, h1, h2, h3⟩ := ih s1 (i + 1) (c + 1) m
          (fun j hj => by
            have := hadc (j + 1) (by simp only [List.length_cons]; omega)
            rw [List.getD_cons_succ] at this
            rw [← this]
            congr 1
            omega)
          hT1 hc1 (by omega) hnil hm1
        refine ⟨sU, false :: flags, by simp only [SCT013.updates, hu, h1], ?_, ?_⟩
        · rw [h2, hs1]
          simp only [List.length_cons, SCT013.sampleLoop, hx]
          congr 1
          exact (SCT013.legacySampleLoop_congr adc xs.length _ _ _ _ (by rfl)).1
        · rw [h3, hs1]
          simp only [List.length_cons, SCT013.sampleLoop, hx]
          exact (SCT013.legacySampleLoop_congr adc xs.length _ _ _ _ (by rfl)).2

end Legacy


namespace Legacy

theorem SCT013.legacyReadAmps_eq (sqrt : ℚ → ℚ) (s : SCT013) (adc : Nat → Int) (n : Nat)
    {m : Int} (hm : shl1 s._adcResolution = some m) :
    SCT013.readAmps sqrt s adc (n : Int)
      = some ((SCT013.sampleLoop adc s 0 0 n).1,
          specResultAmps sqrt (SCT013.sampleLoop adc s 0 0 n).2 (n : Int) s._adcResolution
            s._voltageReference s._calibration) := by
  have hfr := SCT013.legacySampleLoop_frame adc n s 0 0
  have hr1 : (SCT013.sampleLoop adc s 0 0 n).1._adcResolution = s._adcResolution := by
    rw [hfr]
  have hr2 : (SCT013.sampleLoop adc s 0 0 n).1._voltageReference = s._voltageReference := by
    rw [hfr]
  have hr3 : (SCT013.sampleLoop adc s 0 0 n).1._calibration = s._calibration := by
    rw [hfr]
  unfold SCT013.readAmps
  simp only [Int.toNat_ofNat, hr1, hr2, hr3, rmsAmps_isSome hm]

theorem SCT013.legacyReadAmps_none (sqrt : ℚ → ℚ) (s : SCT013) (adc : Nat → Int) (n : Int)
    (hm : shl1 s._adcResolution = none) : SCT013.readAmps sqrt s adc n = none := by
  have hfr := SCT013.legacySampleLoop_frame adc n.toNat s 0 0
  have hr1 : (SCT013.sampleLoop adc s 0 0 n.toNat).1._adcResolution = s._adcResolution := by
    rw [hfr]
  unfold SCT013.readAmps
  simp only [rmsAmps, hr1, hm]

end Legacy

/-- C15: in the legacy variant the blocking and the non-blocking mode compute the same
value.  From a state with an empty window (`_sumI = 0`, `_sampleCount = 0`, target
1000) and for every list of 1000 samples, `readAmps(1000)` returns exactly the value
that `getLastAmps()` returns after 1000 calls of `update()` fed the same samples, and
both leave the same bias; both return whenever `1 << _adcResolution` is defined. -/
theorem C15_blocking_equals_nonblocking (sqrt : ℚ → ℚ) (s : Legacy.SCT013) (xs : List Int)
    (hlen : xs.length = 1000) (hs : s._sumI = 0) (hc : s._sampleCount = 0)
    (hT : s._samplesToAverage = 1000) :
    (∀ m, shl1 s._adcResolution = some m →
        ∃ sR v sU flags,
          Legacy.SCT013.readAmps sqrt s (fun i => xs.getD i 0) 1000 = some (sR, v)
            ∧ Legacy.SCT013.updates sqrt s xs = some (sU, flags)
            ∧ Legacy.SCT013.getLastAmps sU = v
            ∧ Legacy.SCT013.getDCoffset sR = Legacy.SCT013.getDCoffset sU)
      ∧ (∀ sR v sU flags,
          Legacy.SCT013.readAmps sqrt s (fun i => xs.getD i 0) 1000 = some (sR, v) →
          Legacy.SCT013.updates sqrt s xs = some (sU, flags) →
          Legacy.SCT013.getLastAmps sU = v
            ∧ Legacy.SCT013.getDCoffset sR = Legacy.SCT013.getDCoffset sU) := by
  have h1000 : (1000 : Int) = ((xs.length : Nat) : Int) := by rw [hlen]; rfl
  have key : ∀ m, shl1 s._adcResolution = some m →
      ∃ sR v sU flags,
        Legacy.SCT013.readAmps sqrt s (fun i => xs.getD i 0) 1000 = some (sR, v)
          ∧ Legacy.SCT013.updates sqrt s xs = some (sU, flags)
          ∧ Legacy.SCT013.getLastAmps sU = v
          ∧ Legacy.SCT013.getDCoffset sR = Legacy.SCT013.getDCoffset sU := by
    intro m hm
    have hne : xs ≠ [] := by
      intro h
      rw [h] at hlen
      simp at hlen
    obtain ⟨sU, flags, h1, h2, h3⟩ := Legacy.SCT013.legacyUpdates_refine sqrt
      (fun i => xs.getD i 0) xs s 0 0 m (fun j _ => by simp) hT (by simpa using hc)
      (by omega) hne hm
    rw [hs] at h2 h3
    have hR := Legacy.SCT013.legacyReadAmps_eq sqrt s (fun i => xs.getD i 0) xs.length hm
    rw [← h1000] at hR
    exact ⟨_, _, sU, flags, hR, h1, h2, h3.symm⟩
  refine ⟨key, ?_⟩
  intro sR v sU flags hR hU
  cases hm : shl1 s._adcResolution with
  | none =>
    rw [Legacy.SCT013.legacyReadAmps_none sqrt s _ _ hm] at hR
    simp at hR
  | some m =>
    obtain ⟨sR', v', sU', flags', hR', hU', h1, h2⟩ := key m hm
    rw [hR] at hR'
    rw [hU] at hU'
    simp only [Option.some.injEq, Prod.mk.injEq] at hR' hU'
    obtain ⟨rfl, rfl⟩ := hR'
    obtain ⟨rfl, rfl⟩ := hU'
    exact ⟨h1, h2⟩

/-- Instance on `Legacy.legacyFresh` and 1000 samples equal to 600: both modes return
and agree on the value and on the bias. -/
theorem C15_blocking_equals_nonblocking_witness :
    (List.replicate 1000 (600 : Int)).length = 1000
      ∧ Legacy.legacyFresh._sumI = 0 ∧ Legacy.legacyFresh._sampleCount = 0
      ∧ Legacy.legacyFresh._samplesToAverage = 1000
      ∧ ∃ sR v sU flags,
          Legacy.SCT013.readAmps floorSqrt Legacy.legacyFresh
              (fun i => (List.replicate 1000 (600 : Int)).getD i 0) 1000 = some (sR, v)
            ∧ Legacy.SCT013.updates floorSqrt Legacy.legacyFresh
              (List.replicate 1000 (600 : Int)) = some (sU, flags)
            ∧ Legacy.SCT013.getLastAmps sU = v
            ∧ Legacy.SCT013.getDCoffset sR = Legacy.SCT013.getDCoffset sU :=
  ⟨List.length_replicate _ _, rfl, rfl, rfl,
    (C15_blocking_equals_nonblocking floorSqrt Legacy.legacyFresh
      (List.replicate 1000 (600 : Int)) (List.length_replicate _ _) rfl rfl rfl).1 1024
      (by decide)⟩


namespace Current

end Current


namespace Current

end Current


end Sct013
